import Mathlib

/-!
# Verification of the PDF-Generator-Backend calculation and layout engine

Shallow embedding of `calculator-logic.js` and of the page-layout /
EPC-chart logic of the PDF generator.  JavaScript numbers are modelled
exactly: finite values as rationals (`ℚ`), plus the IEEE special values
`Infinity`, `-Infinity` and `NaN`; double-precision rounding is not
modelled (every concrete quantity in the repository's formulas and in
the spec's examples is decimal-exact).  JS objects / JSON field values
are modelled by `Value` (string, number, or array of strings) and a
form-data object by an association list `Data`.
-/

namespace PDFGen

/-- A JavaScript number: a finite rational or one of the IEEE special
values.  (`-0` is identified with `0`; none of the verified code paths
distinguishes them.) -/
inductive JSNum where
  | fin (q : ℚ)
  | inf
  | ninf
  | nan
  deriving DecidableEq, Repr

namespace JSNum

/-- JS addition on numbers (exact on finite values). -/
def add : JSNum → JSNum → JSNum
  | nan, _ => nan
  | _, nan => nan
  | inf, ninf => nan
  | ninf, inf => nan
  | inf, _ => inf
  | _, inf => inf
  | ninf, _ => ninf
  | _, ninf => ninf
  | fin a, fin b => fin (a + b)

/-- JS unary minus. -/
def neg : JSNum → JSNum
  | fin a => fin (-a)
  | inf => ninf
  | ninf => inf
  | nan => nan

/-- JS subtraction, `x - y = x + (-y)` (exactly the IEEE rule set). -/
def sub (x y : JSNum) : JSNum := add x (neg y)

/-- JS multiplication. -/
def mul : JSNum → JSNum → JSNum
  | nan, _ => nan
  | _, nan => nan
  | fin a, fin b => fin (a * b)
  | inf, fin b => if b > 0 then inf else if b < 0 then ninf else nan
  | fin b, inf => if b > 0 then inf else if b < 0 then ninf else nan
  | ninf, fin b => if b > 0 then ninf else if b < 0 then inf else nan
  | fin b, ninf => if b > 0 then ninf else if b < 0 then inf else nan
  | inf, inf => inf
  | inf, ninf => ninf
  | ninf, inf => ninf
  | ninf, ninf => inf

/-- JS division.  Division of a nonzero finite value by `0` gives a
signed infinity (the `+0` case of IEEE; `-0` is not modelled), `0/0`
gives `NaN`. -/
def div : JSNum → JSNum → JSNum
  | nan, _ => nan
  | _, nan => nan
  | fin a, fin b =>
      if b ≠ 0 then fin (a / b)
      else if a > 0 then inf else if a < 0 then ninf else nan
  | fin _, inf => fin 0
  | fin _, ninf => fin 0
  | inf, fin b => if b < 0 then ninf else inf
  | ninf, fin b => if b < 0 then inf else ninf
  | inf, inf => nan
  | inf, ninf => nan
  | ninf, inf => nan
  | ninf, ninf => nan

/-- JS `<` (any comparison with `NaN` is false). -/
def ltB : JSNum → JSNum → Bool
  | nan, _ => false
  | _, nan => false
  | fin a, fin b => decide (a < b)
  | inf, inf => false
  | ninf, ninf => false
  | ninf, _ => true
  | _, inf => true
  | _, _ => false

/-- JS `<=` (any comparison with `NaN` is false). -/
def leB : JSNum → JSNum → Bool
  | nan, _ => false
  | _, nan => false
  | fin a, fin b => decide (a ≤ b)
  | inf, inf => true
  | ninf, ninf => true
  | ninf, _ => true
  | _, inf => true
  | _, _ => false

/-- JS `>`. -/
def gtB (x y : JSNum) : Bool := ltB y x

/-- JS truthiness of a number: `0` and `NaN` are falsy, everything else
(including the infinities) is truthy. -/
def truthyB : JSNum → Bool
  | fin q => decide (q ≠ 0)
  | nan => false
  | _ => true

/-- The JS idiom `x || d` with a numeric default `d`. -/
def orDefault (x : JSNum) (d : ℚ) : JSNum := if truthyB x then x else fin d

/-- The JS idiom `x || 0`. -/
def orZero (x : JSNum) : JSNum := if truthyB x then x else fin 0

/-- The number is a finite value. -/
def isFinite : JSNum → Prop
  | fin _ => True
  | _ => False

instance : Add JSNum := ⟨add⟩
instance : Sub JSNum := ⟨sub⟩
instance : Mul JSNum := ⟨mul⟩
instance : Div JSNum := ⟨div⟩
instance : Neg JSNum := ⟨neg⟩

end JSNum

/-- A JSON-ish field value as submitted in the form data: a string, a
number, or an array of strings (used by `selected_calculators`). -/
inductive Value where
  | str (s : String)
  | num (q : ℚ)
  | arr (elems : List String)
  deriving DecidableEq, Repr

/-- JS truthiness of a `Value`: the empty string and the number `0` are
falsy; every array (even the empty one) is truthy. -/
def Value.truthy : Value → Bool
  | .str s => !s.isEmpty
  | .num q => decide (q ≠ 0)
  | .arr _ => true

/-- A flat form-data object: an association list from field name to
value.  An absent key models a JS `undefined` field. -/
def Data := List (String × Value)

/-- Property access `data.field`: first binding of the key, or `none`
(JS `undefined`) when the key is absent. -/
def Data.get (d : Data) (k : String) : Option Value :=
  (List.find? (fun p => p.1 == k) d).map (·.2)

/-- Truthiness of `data.field` (with `undefined` falsy). -/
def truthyO : Option Value → Bool
  | none => false
  | some v => v.truthy

/-- The JS idiom `a || b` on a possibly-absent value with a `Value`
fallback. -/
def valueOr (v : Option Value) (w : Value) : Value :=
  match v with
  | some x => if x.truthy then x else w
  | none => w

/-! ## `parseFloat` / `parseInt` and the currency helpers -/

/-- Whitespace for JS string trimming / the `\s` regex class (the ASCII
white-space characters plus NBSP; other rare Unicode spaces are not
modelled). -/
def isWSjs (c : Char) : Bool :=
  c = ' ' || c = '\t' || c = '\n' || c = '\r' || c = '\x0b' || c = '\x0c' || c = '\xa0'

/-- Numeric value of a decimal digit character. -/
def digVal (c : Char) : ℕ := c.toNat - 48

/-- Value of a big-endian list of decimal digit characters. -/
def natOfDigits (l : List Char) : ℕ := l.foldl (fun a c => 10 * a + digVal c) 0

/-- Consume an optional leading sign; returns (isNegative, rest). -/
def readSign : List Char → Bool × List Char
  | '+' :: r => (false, r)
  | '-' :: r => (true, r)
  | l => (false, l)

/-- ECMAScript `parseFloat` on a character list: skip leading
whitespace, optional sign, then the longest prefix that is either
`Infinity` or a decimal literal `digits [. digits] [e[±]digits]`
(at least one digit before or after the dot); `NaN` when no prefix
matches.  Exact-rational value, no double rounding/overflow. -/
def parseFloatCore (l : List Char) : JSNum :=
  let l1 := l.dropWhile isWSjs
  let sr := readSign l1
  let neg := sr.1
  let l2 := sr.2
  if ['I', 'n', 'f', 'i', 'n', 'i', 't', 'y'].isPrefixOf l2 then
    (if neg then .ninf else .inf)
  else
    let ipr := l2.span Char.isDigit
    let ip := ipr.1
    let fpr : List Char × List Char :=
      match ipr.2 with
      | '.' :: t => t.span Char.isDigit
      | _ => ([], ipr.2)
    let fp := fpr.1
    let r2 :=
      match ipr.2 with
      | '.' :: _ => fpr.2
      | _ => ipr.2
    if ip.isEmpty && fp.isEmpty then .nan
    else
      let mant : ℚ := (natOfDigits ip : ℚ) + (natOfDigits fp : ℚ) / (10 : ℚ) ^ fp.length
      let ex : ℤ :=
        match r2 with
        | c :: t =>
            if c = 'e' || c = 'E' then
              let esr := readSign t
              let ed := (esr.2.takeWhile Char.isDigit)
              if ed.isEmpty then 0
              else if esr.1 then -(natOfDigits ed : ℤ) else (natOfDigits ed : ℤ)
            else 0
        | [] => 0
      let v : ℚ := mant * (10 : ℚ) ^ ex
      .fin (if neg then -v else v)

/-- `parseFloat` on a string. -/
def jsParseFloatS (s : String) : JSNum := parseFloatCore s.data

/-- Truncation of a rational toward zero (what `parseInt` does to the
decimal rendering of a number). -/
def ratTrunc (q : ℚ) : ℤ := q.num / (q.den : ℤ)

/-- Hexadecimal digit predicate / value (for the `0x` form accepted by
`parseInt` with no radix argument). -/
def isHexDig (c : Char) : Bool :=
  c.isDigit || ('a' ≤ c && c ≤ 'f') || ('A' ≤ c && c ≤ 'F')

def hexVal (c : Char) : ℕ :=
  if c.isDigit then c.toNat - 48
  else if 'a' ≤ c && c ≤ 'f' then c.toNat - 87
  else c.toNat - 55

def natOfHexDigits (l : List Char) : ℕ := l.foldl (fun a c => 16 * a + hexVal c) 0

/-- ECMAScript `parseInt` (radix unspecified) on a character list:
whitespace, optional sign, then either a `0x`/`0X` hexadecimal literal
or a decimal digit prefix; `none` models `NaN`. -/
def parseIntCore (l : List Char) : Option ℤ :=
  let l1 := l.dropWhile isWSjs
  let sr := readSign l1
  let sgn : ℤ := if sr.1 then -1 else 1
  match sr.2 with
  | '0' :: c :: t =>
      if c = 'x' || c = 'X' then
        let hd := t.takeWhile isHexDig
        if hd.isEmpty then none else some (sgn * (natOfHexDigits hd : ℤ))
      else
        -- decimal path on the full remainder (starting with the '0')
        let ds := ('0' :: c :: t).takeWhile Char.isDigit
        if ds.isEmpty then none else some (sgn * (natOfDigits ds : ℤ))
  | l2 =>
      let ds := l2.takeWhile Char.isDigit
      if ds.isEmpty then none else some (sgn * (natOfDigits ds : ℤ))

/-- `parseInt(value)` on a field value.  A number argument is first
converted to its decimal string, whose digit prefix yields truncation
toward zero (exact for `|q| < 10^21`, where JS prints no exponent); an
array is joined with commas, so only its first element's digit prefix
counts. -/
def parseIntV : Value → Option ℤ
  | .str s => parseIntCore s.data
  | .num q => some (ratTrunc q)
  | .arr l => parseIntCore (String.intercalate "," l).data

/-- `parseFloat(value)` on a possibly-absent field value.
`parseFloat(undefined)` is the parse of the string `"undefined"`,
i.e. `NaN`.  For a number argument, `String(q)` round-trips through
`parseFloat` (exact for the decimal-printed range), so the number
itself is returned. -/
def jsParseFloat : Option Value → JSNum
  | none => .nan
  | some (.str s) => jsParseFloatS s
  | some (.num q) => .fin q
  | some (.arr l) => jsParseFloatS (String.intercalate "," l)

/-- The regex replace `String(value).replace(/[£,\s]/g, '')`. -/
def stripCur (s : String) : String :=
  ⟨s.data.filter (fun c => !(c = '£' || c = ',' || isWSjs c))⟩

/-- `parseCurrency` from `calculator-logic.js`:
`if (!value) return 0; return parseFloat(String(value).replace(/[£,\s]/g, '')) || 0;`.
For a (truthy) number argument `String(q)` contains none of the
stripped characters and `parseFloat` round-trips it, yielding `q`. -/
def parseCurrency (v : Option Value) : JSNum :=
  if truthyO v then
    match v with
    | some (.str s) => (jsParseFloatS (stripCur s)).orZero
    | some (.num q) => .fin q
    | some (.arr l) => (jsParseFloatS (stripCur (String.intercalate "," l))).orZero
    | none => .fin 0
  else .fin 0

/-- The local `parseCurrency` helper defined inside the PDF generator:
`if (!value) return 0; return parseFloat(value.toString().replace(/[£,\s]/g, '')) || 0;`
(`value.toString()` agrees with `String(value)` on every value in the
field-value domain). -/
def parseCurrencyPDF (v : Option Value) : JSNum :=
  if truthyO v then
    match v with
    | some (.str s) => (jsParseFloatS (stripCur s)).orZero
    | some (.num q) => .fin q
    | some (.arr l) => (jsParseFloatS (stripCur (String.intercalate "," l))).orZero
    | none => .fin 0
  else .fin 0

/-- The percentage-field idiom `parseFloat(data.field) || default`. -/
def percentOr (v : Option Value) (d : ℚ) : JSNum := (jsParseFloat v).orDefault d

/-- The character of a decimal digit. -/
def digitChar (d : ℕ) : Char := Char.ofNat (48 + d)

/-- Big-endian decimal digit characters of a natural number. -/
def digitsBE (n : ℕ) : List Char :=
  if n = 0 then ['0'] else ((Nat.digits 10 n).map digitChar).reverse

/-- Thousands grouping on a little-endian digit list: a comma after
every three digits (when more digits follow). -/
def groupLE : List Char → List Char
  | a :: b :: c :: d :: l => a :: b :: c :: ',' :: groupLE (d :: l)
  | l => l

/-- `n.toLocaleString('en-GB')` for a whole number: decimal digits with
comma thousands separators. -/
def groupedDigits (n : ℕ) : String := ⟨(groupLE (digitsBE n).reverse).reverse⟩

/-- Rounding to a whole unit as `toLocaleString` with
`maximumFractionDigits: 0` does (ECMA-402 default rounding mode
`halfExpand`: round half away from zero). -/
def roundHalfExpand (x : ℚ) : ℤ :=
  if x < 0 then -⌊-x + 1 / 2⌋ else ⌊x + 1 / 2⌋

/-- `formatCurrency` from `calculator-logic.js`:
`` `£${value.toLocaleString('en-GB', { minimumFractionDigits: 0, maximumFractionDigits: 0 })}` ``. -/
def formatCurrency (x : ℚ) : String :=
  if x < 0 then "£-" ++ groupedDigits (-roundHalfExpand x).toNat
  else "£" ++ groupedDigits (roundHalfExpand x).toNat

/-! ## The six investment calculators (`calculator-logic.js`)

Each calculator returns its result object as an association list from
metric name to number, with the entries in the source's order. -/

/-- A calculator result object. -/
def Result := List (String × JSNum)

/-- Result-field access. -/
def Result.get (r : Result) (k : String) : Option JSNum :=
  (List.find? (fun p => p.1 == k) r).map (·.2)

open JSNum in
/-- `calculateStandardBTL` (calculator-logic.js lines 14–60). -/
def calculateStandardBTL (data : Data) : Result :=
  let purchasePrice := parseCurrency (data.get "purchase_price")
  let depositPercent := percentOr (data.get "deposit_percent") 20
  let monthlyRent := parseCurrency (data.get "monthly_rent")
  let mortgageRate := percentOr (data.get "mortgage_rate") 5.8
  let depositAmount := purchasePrice * (depositPercent / fin 100)
  let annualRent := monthlyRent * fin 12
  let rentalYield :=
    if gtB purchasePrice (fin 0) then (annualRent / purchasePrice) * fin 100 else fin 0
  let stampDuty := parseCurrency (data.get "stamp_duty")
  let surveyCost := parseCurrency (data.get "survey_cost")
  let legalFees := parseCurrency (data.get "legal_fees")
  let loanSetup := parseCurrency (data.get "loan_setup")
  let totalPurchaseCosts := stampDuty + surveyCost + legalFees + loanSetup
  let totalInvestment := depositAmount + totalPurchaseCosts
  let mortgageAmount := purchasePrice - depositAmount
  let annualMortgageInterest := mortgageAmount * (mortgageRate / fin 100)
  let councilTax := parseCurrency (data.get "council_tax")
  let repairs := parseCurrency (data.get "repairs_maintenance")
  let utilities := parseCurrency (data.get "utilities")
  let water := parseCurrency (data.get "water")
  let broadband := parseCurrency (data.get "broadband_tv")
  let insurance := parseCurrency (data.get "insurance")
  let totalAnnualExpenses :=
    annualMortgageInterest + councilTax + repairs + utilities + water + broadband + insurance
  let annualProfit := annualRent - totalAnnualExpenses
  let monthlyProfit := annualProfit / fin 12
  let roi :=
    if gtB totalInvestment (fin 0) then (annualProfit / totalInvestment) * fin 100 else fin 0
  [("purchasePrice", purchasePrice), ("depositAmount", depositAmount),
   ("mortgageAmount", mortgageAmount), ("totalInvestment", totalInvestment),
   ("annualRent", annualRent), ("monthlyRent", monthlyRent),
   ("rentalYield", rentalYield), ("totalAnnualExpenses", totalAnnualExpenses),
   ("annualProfit", annualProfit), ("monthlyProfit", monthlyProfit), ("roi", roi)]

open JSNum in
/-- `calculateBRR` (calculator-logic.js lines 63–110). -/
def calculateBRR (data : Data) : Result :=
  let purchasePrice := parseCurrency (data.get "purchase_price")
  let refurbCost := parseCurrency (data.get "refurb_cost")
  let afterRefurbValue := parseCurrency (data.get "after_refurb_value")
  let depositPercent := percentOr (data.get "deposit_percent") 20
  let mortgageRate := percentOr (data.get "mortgage_rate") 5.8
  let refinanceLTV := percentOr (data.get "refinance_ltv") 75
  let monthlyRent := parseCurrency (data.get "monthly_rent")
  let depositAmount := purchasePrice * (depositPercent / fin 100)
  let initialMortgage := purchasePrice - depositAmount
  let totalInitialInvestment := depositAmount + refurbCost
  let refinanceAmount := afterRefurbValue * (refinanceLTV / fin 100)
  let moneyBack := refinanceAmount - initialMortgage
  let netInvestment := totalInitialInvestment - moneyBack
  let annualRent := monthlyRent * fin 12
  let rentalYield :=
    if gtB afterRefurbValue (fin 0) then (annualRent / afterRefurbValue) * fin 100 else fin 0
  let annualMortgageInterest := refinanceAmount * (mortgageRate / fin 100)
  let councilTax := parseCurrency (data.get "council_tax")
  let repairs := parseCurrency (data.get "repairs_maintenance")
  let insurance := parseCurrency (data.get "insurance")
  let totalAnnualExpenses := annualMortgageInterest + councilTax + repairs + insurance
  let annualProfit := annualRent - totalAnnualExpenses
  let monthlyProfit := annualProfit / fin 12
  let roi :=
    if gtB netInvestment (fin 0) then (annualProfit / netInvestment) * fin 100 else fin 0
  [("purchasePrice", purchasePrice), ("refurbCost", refurbCost),
   ("afterRefurbValue", afterRefurbValue), ("depositAmount", depositAmount),
   ("totalInitialInvestment", totalInitialInvestment), ("refinanceAmount", refinanceAmount),
   ("moneyBack", moneyBack), ("netInvestment", netInvestment),
   ("annualRent", annualRent), ("monthlyRent", monthlyRent),
   ("rentalYield", rentalYield), ("totalAnnualExpenses", totalAnnualExpenses),
   ("annualProfit", annualProfit), ("monthlyProfit", monthlyProfit), ("roi", roi)]

open JSNum in
/-- `calculateFlip` (calculator-logic.js lines 113–146). -/
def calculateFlip (data : Data) : Result :=
  let purchasePrice := parseCurrency (data.get "purchase_price")
  let refurbCost := parseCurrency (data.get "refurb_cost")
  let salePrice := parseCurrency (data.get "sale_price")
  let holdingPeriod := percentOr (data.get "holding_period") 6
  let stampDuty := parseCurrency (data.get "stamp_duty")
  let surveyCost := parseCurrency (data.get "survey_cost")
  let legalFeesPurchase := parseCurrency (data.get "legal_fees")
  let legalFeesSale := parseCurrency (data.get "legal_fees_sale")
  let estateAgentFees := parseCurrency (data.get "estate_agent_fees")
  let financeCost := parseCurrency (data.get "finance_cost")
  let totalPurchaseCosts := stampDuty + surveyCost + legalFeesPurchase
  let totalSaleCosts := legalFeesSale + estateAgentFees
  let totalInvestment := purchasePrice + refurbCost + totalPurchaseCosts + financeCost
  let grossProfit := salePrice - totalInvestment - totalSaleCosts
  let netProfit := grossProfit
  let roi :=
    if gtB totalInvestment (fin 0) then (netProfit / totalInvestment) * fin 100 else fin 0
  let monthlyROI := if gtB holdingPeriod (fin 0) then roi / holdingPeriod else fin 0
  [("purchasePrice", purchasePrice), ("refurbCost", refurbCost), ("salePrice", salePrice),
   ("totalInvestment", totalInvestment), ("grossProfit", grossProfit),
   ("netProfit", netProfit), ("roi", roi), ("monthlyROI", monthlyROI),
   ("holdingPeriod", holdingPeriod)]

open JSNum in
/-- `calculateHolidayLet` (calculator-logic.js lines 149–194). -/
def calculateHolidayLet (data : Data) : Result :=
  let purchasePrice := parseCurrency (data.get "purchase_price")
  let depositPercent := percentOr (data.get "deposit_percent") 20
  let mortgageRate := percentOr (data.get "mortgage_rate") 5.8
  let weeklyRent := parseCurrency (data.get "weekly_rent")
  let occupancyRate := percentOr (data.get "occupancy_rate") 50
  let managementFeePercent := percentOr (data.get "management_fee") 20
  let cleaningFee := parseCurrency (data.get "cleaning_fee")
  let depositAmount := purchasePrice * (depositPercent / fin 100)
  let mortgageAmount := purchasePrice - depositAmount
  let weeksPerYear := fin 52
  let occupiedWeeks := weeksPerYear * (occupancyRate / fin 100)
  let annualRent := weeklyRent * occupiedWeeks
  let managementFee := annualRent * (managementFeePercent / fin 100)
  let totalCleaningFees := cleaningFee * occupiedWeeks
  let annualMortgageInterest := mortgageAmount * (mortgageRate / fin 100)
  let councilTax := parseCurrency (data.get "council_tax")
  let utilities := parseCurrency (data.get "utilities")
  let insurance := parseCurrency (data.get "insurance")
  let totalAnnualExpenses :=
    annualMortgageInterest + managementFee + totalCleaningFees + councilTax + utilities + insurance
  let annualProfit := annualRent - totalAnnualExpenses
  let monthlyProfit := annualProfit / fin 12
  let rentalYield :=
    if gtB purchasePrice (fin 0) then (annualRent / purchasePrice) * fin 100 else fin 0
  let totalInvestment := depositAmount
  let roi :=
    if gtB totalInvestment (fin 0) then (annualProfit / totalInvestment) * fin 100 else fin 0
  [("purchasePrice", purchasePrice), ("depositAmount", depositAmount),
   ("mortgageAmount", mortgageAmount), ("annualRent", annualRent),
   ("weeklyRent", weeklyRent), ("occupancyRate", occupancyRate),
   ("occupiedWeeks", occupiedWeeks), ("totalAnnualExpenses", totalAnnualExpenses),
   ("annualProfit", annualProfit), ("monthlyProfit", monthlyProfit),
   ("rentalYield", rentalYield), ("roi", roi)]

/-- `Math.floor` on a JS number: the rational floor on finite values,
the identity on `±Infinity`, `NaN` on `NaN`. -/
def jsFloor : JSNum → JSNum
  | .fin q => .fin (⌊q⌋ : ℚ)
  | x => x

open JSNum in
/-- `calculateRentToHMO` (calculator-logic.js lines 197–231). -/
def calculateRentToHMO (data : Data) : Result :=
  let monthlyRentPaid := parseCurrency (data.get "monthly_rent_paid")
  let numberOfRooms := percentOr (data.get "number_of_rooms") 1
  let rentPerRoom := parseCurrency (data.get "rent_per_room")
  let occupancyRate := percentOr (data.get "occupancy_rate") 80
  let annualRentPaid := monthlyRentPaid * fin 12
  let occupiedRooms := jsFloor (numberOfRooms * (occupancyRate / fin 100))
  let monthlyIncome := rentPerRoom * occupiedRooms
  let annualIncome := monthlyIncome * fin 12
  let councilTax := parseCurrency (data.get "council_tax")
  let utilities := parseCurrency (data.get "utilities")
  let insurance := parseCurrency (data.get "insurance")
  let managementFee := parseCurrency (data.get "management_fee")
  let totalAnnualExpenses := annualRentPaid + councilTax + utilities + insurance + managementFee
  let annualProfit := annualIncome - totalAnnualExpenses
  let monthlyProfit := annualProfit / fin 12
  let roi :=
    if gtB annualRentPaid (fin 0) then (annualProfit / annualRentPaid) * fin 100 else fin 0
  [("monthlyRentPaid", monthlyRentPaid), ("annualRentPaid", annualRentPaid),
   ("numberOfRooms", numberOfRooms), ("rentPerRoom", rentPerRoom),
   ("occupiedRooms", occupiedRooms), ("monthlyIncome", monthlyIncome),
   ("annualIncome", annualIncome), ("totalAnnualExpenses", totalAnnualExpenses),
   ("annualProfit", annualProfit), ("monthlyProfit", monthlyProfit), ("roi", roi)]

open JSNum in
/-- `calculateRentToServiced` (calculator-logic.js lines 234–269). -/
def calculateRentToServiced (data : Data) : Result :=
  let monthlyRentPaid := parseCurrency (data.get "monthly_rent_paid")
  let dailyRate := parseCurrency (data.get "daily_rate")
  let occupancyRate := percentOr (data.get "occupancy_rate") 60
  let cleaningFee := parseCurrency (data.get "cleaning_fee")
  let managementFeePercent := percentOr (data.get "management_fee") 20
  let annualRentPaid := monthlyRentPaid * fin 12
  let daysPerYear := fin 365
  let occupiedDays := daysPerYear * (occupancyRate / fin 100)
  let annualIncome := dailyRate * occupiedDays
  let managementFee := annualIncome * (managementFeePercent / fin 100)
  let totalCleaningFees := cleaningFee * occupiedDays
  let councilTax := parseCurrency (data.get "council_tax")
  let utilities := parseCurrency (data.get "utilities")
  let insurance := parseCurrency (data.get "insurance")
  let totalAnnualExpenses :=
    annualRentPaid + managementFee + totalCleaningFees + councilTax + utilities + insurance
  let annualProfit := annualIncome - totalAnnualExpenses
  let monthlyProfit := annualProfit / fin 12
  let roi :=
    if gtB annualRentPaid (fin 0) then (annualProfit / annualRentPaid) * fin 100 else fin 0
  [("monthlyRentPaid", monthlyRentPaid), ("annualRentPaid", annualRentPaid),
   ("dailyRate", dailyRate), ("occupancyRate", occupancyRate),
   ("occupiedDays", occupiedDays), ("annualIncome", annualIncome),
   ("totalAnnualExpenses", totalAnnualExpenses), ("annualProfit", annualProfit),
   ("monthlyProfit", monthlyProfit), ("roi", roi)]

/-- `calculateInvestment` (calculator-logic.js lines 272–292): dispatch
on `data.calculator_type || 'standard-btl'`; an unknown type falls back
to the standard BTL calculator.  The JS `switch` compares with `===`,
so only exact string matches select a non-default branch. -/
def calculateInvestment (data : Data) : Result :=
  let ct : Value := valueOr (data.get "calculator_type") (.str "standard-btl")
  if ct = .str "standard-btl" || ct = .str "purchase" then calculateStandardBTL data
  else if ct = .str "brr" then calculateBRR data
  else if ct = .str "flip" then calculateFlip data
  else if ct = .str "holiday-let" then calculateHolidayLet data
  else if ct = .str "rent-to-hmo" then calculateRentToHMO data
  else if ct = .str "rent-to-serviced" then calculateRentToServiced data
  else calculateStandardBTL data

/-! ## Page-geometry constants and the EPC chart (pdf-generator) -/

def INCH : ℚ := 72
def A4_WIDTH : ℚ := 595.28
def A4_HEIGHT : ℚ := 841.89
def MARGIN : ℚ := 0.75 * INCH
def HEADER_TOP_OFFSET : ℚ := 0.45 * INCH

/-- The content-start Y used by every page template:
`HEADER_TOP_OFFSET + estimatedLogoHeight + 12 + 9 + 20` with
`estimatedLogoHeight = (1.4 * INCH) * 0.4`. -/
def contentTop : ℚ := HEADER_TOP_OFFSET + (1.4 * INCH) * 0.4 + 12 + 9 + 20

/-- One band of the EPC chart (source field names kept). -/
structure EPCBand where
  grade : String
  min : ℤ
  max : ℤ
  color : String
  range : String
  deriving DecidableEq, Repr

/-- The `epcBands` table of `createEPCChart`, in source order (A first,
G last). -/
def epcBands : List EPCBand :=
  [⟨"A", 92, 100, "#008450", "92+"⟩,
   ⟨"B", 81, 91, "#22c55e", "81-91"⟩,
   ⟨"C", 69, 80, "#84cc16", "69-80"⟩,
   ⟨"D", 55, 68, "#eab308", "55-68"⟩,
   ⟨"E", 39, 54, "#f59e0b", "39-54"⟩,
   ⟨"F", 21, 38, "#ef4444", "21-38"⟩,
   ⟨"G", 1, 20, "#dc2626", "1-20"⟩]

def chartWidth : ℚ := 4.6 * INCH
def barHeight : ℚ := 0.18 * INCH
def barSpacing : ℚ := 0.09 * INCH
def colGap : ℚ := 0.20 * INCH

/-- Drawn width of the band at row index `i` (0 = A … 6 = G) when the
chart is placed at x-origin `x`: proportional width
`chartWidth * (i+1)/7`, clamped so the grade letter fits left of the
"Current" column. -/
def epcBarWidth (x : ℚ) (i : ℕ) : ℚ :=
  let startX := x - 0.15 * INCH
  let currentColX := startX + chartWidth + colGap
  let proportion := ((i : ℚ) + 1) / 7
  let w := chartWidth * proportion
  let letterPadding := 0.08 * INCH
  let maxLetterX := currentColX - 0.32 * INCH
  let maxBarWidthForLetter := max 0 ((maxLetterX - startX) - letterPadding)
  if w > maxBarWidthForLetter then maxBarWidthForLetter else w

/-- `letterFor` inside `createEPCChart`: first band whose `[min,max]`
contains the score, else the lowest grade `"G"`. -/
def letterFor (score : ℤ) : String :=
  match epcBands.find? (fun b => decide (score ≥ b.min) && decide (score ≤ b.max)) with
  | some b => b.grade
  | none => "G"

/-- `bandCenterY` inside `createEPCChart`: the vertical center of the
first band containing the score, else of the last (lowest) band. -/
def bandCenterY (startY : ℚ) (score : ℤ) : ℚ :=
  match epcBands.findIdx? (fun b => decide (score ≥ b.min) && decide (score ≤ b.max)) with
  | some i => startY + (i : ℚ) * (barHeight + barSpacing) + barHeight / 2
  | none => startY + ((epcBands.length : ℚ) - 1) * (barHeight + barSpacing) + barHeight / 2

/-- The resolved "current" score:
`parseInt(data.current_rating || data.epc_rating || '84')`, replaced by
84 when `NaN`. -/
def currentScore (d : Data) : ℤ :=
  match parseIntV (valueOr (d.get "current_rating")
      (valueOr (d.get "epc_rating") (.str "84"))) with
  | some n => n
  | none => 84

/-- The resolved "potential" score:
`parseInt(data.potential_rating || '72')`, replaced by 72 when `NaN`. -/
def potentialScore (d : Data) : ℤ :=
  match parseIntV (valueOr (d.get "potential_rating") (.str "72")) with
  | some n => n
  | none => 72

/-! ## The document composer: page sequence of `generatePDF`

Pages are modelled as lists of abstract draw events; each top-level
`create*Page` call in `generatePDF` is followed by `doc.addPage()`, so
the document is the concatenation of per-section page lists.  Sections
whose internals no claim touches (cover, key information, other key
information, city map) draw their header plus a single opaque content
event; they never call `addPage`, so each occupies exactly one page.
The investment, floor-plan and gallery sections, which do add pages,
are modelled loop-by-loop from the source. -/

/-- The categorized image lists; `none` models an absent (`undefined`
or `null`) key, while `some []` is a present-but-empty list. -/
structure Images where
  cover : Option (List String) := none
  property : Option (List String) := none
  floor_plans : Option (List String) := none
  directions : Option (List String) := none
  city : Option (List String) := none

/-- An abstract draw event on a page. -/
inductive Ev where
  | header
  | text (s : String)
  | image (p : Option String)
  | calcSection (ct : Value)
  | coverContent
  | keyInfoContent
  | otherKeyInfoContent
  | cityMapContent
  deriving DecidableEq, Repr

/-- The `.length === 0` test of `createInvestmentPage` on a raw value:
arrays and strings expose `length`; a number's `length` is `undefined`,
and `undefined === 0` is false. -/
def lengthIsZero : Value → Bool
  | .arr l => l.isEmpty
  | .str s => s.isEmpty
  | .num _ => false

/-- The fallback list
`data.calculator_type ? [data.calculator_type] : ['standard-btl']`. -/
def fallbackCalculators (d : Data) : List Value :=
  match d.get "calculator_type" with
  | some v => if v.truthy then [v] else [.str "standard-btl"]
  | none => [.str "standard-btl"]

/-- Normalization of the selected-calculator list in
`createInvestmentPage`: take `selected_calculators` when truthy (else
the fallback); an empty list/string becomes `['standard-btl']`; a
string is split on commas, trimmed and blank-filtered; a non-array
scalar is wrapped. -/
def normalizeCalculators (d : Data) : List Value :=
  match d.get "selected_calculators" with
  | some v =>
      if v.truthy then
        if lengthIsZero v then [.str "standard-btl"]
        else
          match v with
          | .str s => (((s.splitOn ",").map String.trim).filter (fun t => !t.isEmpty)).map Value.str
          | .arr l => l.map Value.str
          | .num q => [.num q]
      else fallbackCalculators d
  | none => fallbackCalculators d

/-- Pages produced by `createInvestmentPage`: one section per selected
calculator (header + rendered section, which never adds a page), each
section after the first on a fresh page.  An empty normalized list
(possible via a comma-only string) leaves the current page blank. -/
def investmentPages (d : Data) : List (List Ev) :=
  match normalizeCalculators d with
  | [] => [[]]
  | cts => cts.map (fun ct => [Ev.header, Ev.calcSection ct])

/-- The events one floor-plan slot draws (header, title, image or
placeholder). -/
def floorPlanEvs (p : Option String) : List Ev :=
  [Ev.header, Ev.text "Floor Plans", Ev.image p]

/-- The floor-plan loop: after each image, a new page is started unless
the image path equals the last list element (the source compares values
with `!==`). -/
def fpLoop (last : String) : List String → List Ev → List (List Ev)
  | [], cur => [cur]
  | p :: rest, cur =>
      let cur2 := cur ++ floorPlanEvs (some p)
      if p ≠ last then cur2 :: fpLoop last rest [] else fpLoop last rest cur2

/-- Pages of the floor-plan section: one page per image, or a single
placeholder page when the list is empty. -/
def floorPlanPages (fps : List String) : List (List Ev) :=
  match fps with
  | [] => [floorPlanEvs none]
  | l => fpLoop (l.getLast?.getD "") l []

def GALLERY_W : ℚ := 5.4 * INCH
def GALLERY_H : ℚ := 2.8 * INCH
def GALLERY_SPACING : ℚ := 60

/-- The gallery loop: before drawing each image, start a new page
(re-drawing header and title) when the image would overflow the
vertical content bound.  `titleH` is the measured height of the
"Property Images" title (a rendering-backend capability). -/
def galLoop (titleH : ℚ) : List String → ℚ → List Ev → List (List Ev)
  | [], _, cur => [cur]
  | p :: rest, y, cur =>
      if y + GALLERY_H + GALLERY_SPACING > A4_HEIGHT - MARGIN then
        cur :: galLoop titleH rest (contentTop + titleH + 28 + (GALLERY_H + GALLERY_SPACING))
          [Ev.header, Ev.text "Property Images", Ev.image (some p)]
      else
        galLoop titleH rest (y + (GALLERY_H + GALLERY_SPACING)) (cur ++ [Ev.image (some p)])

/-- The gallery image list:
`images.property || images.cover || []` — the property list is used
whenever the key is present (arrays, even empty, are truthy); the cover
list only when `property` is absent. -/
def galleryList (im : Images) : List String :=
  match im.property with
  | some l => l
  | none =>
      match im.cover with
      | some l => l
      | none => []

/-- Pages of the gallery section: nothing is drawn when the list is
empty (the pre-created page stays blank); otherwise header + title then
the overflow loop. -/
def galleryPages (imgs : List String) (titleH : ℚ) : List (List Ev) :=
  match imgs with
  | [] => [[]]
  | l => galLoop titleH l (contentTop + titleH + 28) [Ev.header, Ev.text "Property Images"]

/-- The full page sequence of `generatePDF`: cover → investment →
key information → other key information → floor plans → gallery →
city map. -/
def generatePDFPages (d : Data) (im : Images) (titleH : ℚ) : List (List Ev) :=
  [[Ev.header, Ev.coverContent]]
    ++ investmentPages d
    ++ [[Ev.header, Ev.keyInfoContent]]
    ++ [[Ev.header, Ev.otherKeyInfoContent]]
    ++ floorPlanPages (im.floor_plans.getD [])
    ++ galleryPages (galleryList im) titleH
    ++ [[Ev.header, Ev.cityMapContent]]

/-- A page showing an investment-calculator section. -/
def isInvestmentPage (p : List Ev) : Bool :=
  p.any (fun e => match e with | .calcSection _ => true | _ => false)

/-- A page showing floor-plan content. -/
def isFloorPlanPage (p : List Ev) : Bool :=
  p.any (fun e => e == Ev.text "Floor Plans")

/-- A page showing gallery content. -/
def isGalleryPage (p : List Ev) : Bool :=
  p.any (fun e => e == Ev.text "Property Images")

/-! ## Claim-support definitions -/

/-- The input of the spec's Standard-BTL worked example. -/
def stdBTLExampleData : Data :=
  [("purchase_price", .str "£200,000"), ("deposit_percent", .num 25),
   ("monthly_rent", .str "£1,200"), ("mortgage_rate", .num 5),
   ("council_tax", .num 150), ("repairs_maintenance", .num 50),
   ("utilities", .num 40), ("water", .num 20), ("broadband_tv", .num 30),
   ("insurance", .num 25)]

/-- Every numeric field of a calculator result is a finite number. -/
def allFinite : Result → Prop
  | [] => True
  | p :: r => (p.2).isFinite ∧ allFinite r

/-- No supplied field parses to an infinite value (rules out only the
strings "Infinity"/"-Infinity"; every ordinary string or number input
satisfies this). -/
def noInfInputs (d : Data) : Prop :=
  ∀ k : String, (parseCurrency (d.get k)).isFinite ∧
    jsParseFloat (d.get k) ≠ .inf ∧ jsParseFloat (d.get k) ≠ .ninf

/-- The ROI guard contract of a calculator result: `roi` is 0 whenever
the basis field is ≤ 0 (or not > 0), and is `(profit/basis)·100` when
the basis is > 0. -/
def roiGuardOK (r : Result) (basisKey profitKey : String) : Prop :=
  (JSNum.leB ((r.get basisKey).getD .nan) (.fin 0) = true → r.get "roi" = some (.fin 0)) ∧
  (JSNum.gtB ((r.get basisKey).getD .nan) (.fin 0) = false → r.get "roi" = some (.fin 0)) ∧
  (JSNum.gtB ((r.get basisKey).getD .nan) (.fin 0) = true →
    r.get "roi" = some ((((r.get profitKey).getD .nan) / ((r.get basisKey).getD .nan)) * .fin 100))

/-- Events a floor-plan page may contain. -/
def fpEv (e : Ev) : Prop := e = Ev.header ∨ e = Ev.text "Floor Plans" ∨ ∃ p, e = Ev.image p

/-- Events a gallery page may contain. -/
def galEv (e : Ev) : Prop :=
  e = Ev.header ∨ e = Ev.text "Property Images" ∨ ∃ p, e = Ev.image p

/-! ## Helper lemmas -/

namespace JSNum
variable {a b q : ℚ} {x y : JSNum}

@[simp] theorem fin_add_fin : fin a + fin b = fin (a + b) := rfl
@[simp] theorem fin_mul_fin : fin a * fin b = fin (a * b) := rfl
@[simp] theorem fin_sub_fin : fin a - fin b = fin (a - b) := by
  show sub _ _ = _
  simp only [sub, add, neg]
  rw [sub_eq_add_neg]
@[simp] theorem fin_div_fin (h : b ≠ 0) : fin a / fin b = fin (a / b) := by
  show div _ _ = _
  simp [div, h]
@[simp] theorem gtB_fin_fin : gtB (fin a) (fin b) = decide (b < a) := rfl
@[simp] theorem leB_fin_fin : leB (fin a) (fin b) = decide (a ≤ b) := rfl
@[simp] theorem truthyB_fin : truthyB (fin q) = decide (q ≠ 0) := rfl
@[simp] theorem orZero_fin (h : q ≠ 0) : orZero (fin q) = fin q := by simp [orZero, h]
@[simp] theorem orZero_nan : orZero nan = fin 0 := rfl
@[simp] theorem orZero_inf : orZero inf = inf := rfl
@[simp] theorem orDefault_nan {d : ℚ} : orDefault nan d = fin d := rfl
theorem orDefault_fin {d : ℚ} (h : q ≠ 0) : orDefault (fin q) d = fin q := by
  simp [orDefault, h]
theorem orDefault_fin_zero {d : ℚ} : orDefault (fin 0) d = fin d := by
  simp [orDefault]
@[simp] theorem inf_mul_fin (h : 0 < q) : inf * fin q = inf := by
  show mul _ _ = _
  simp [mul, h]
@[simp] theorem inf_sub_inf : inf - inf = nan := rfl

@[simp] theorem isFinite_fin : (fin q).isFinite := trivial

theorem isFinite_iff : x.isFinite ↔ ∃ q, x = fin q := by
  cases x <;> simp [isFinite]
theorem isFinite_add : (x + y).isFinite ↔ x.isFinite ∧ y.isFinite := by
  cases x <;> cases y <;> simp [isFinite, HAdd.hAdd, Add.add, add]
theorem isFinite_sub : (x - y).isFinite ↔ x.isFinite ∧ y.isFinite := by
  cases x <;> cases y <;> simp [isFinite, HSub.hSub, Sub.sub, sub, add, neg]
theorem isFinite_mul : (x * y).isFinite ↔ x.isFinite ∧ y.isFinite := by
  cases x <;> cases y <;> simp [isFinite, HMul.hMul, Mul.mul, mul] <;>
    split_ifs <;> simp [isFinite]
theorem isFinite_div_const (h : b ≠ 0) : (x / fin b).isFinite ↔ x.isFinite := by
  cases x <;> simp [isFinite, HDiv.hDiv, Div.div, div, h] <;>
    split_ifs <;> simp [isFinite]
@[simp] theorem isFinite_div_12 : (x / fin 12).isFinite ↔ x.isFinite :=
  isFinite_div_const (by norm_num)
@[simp] theorem isFinite_div_100 : (x / fin 100).isFinite ↔ x.isFinite :=
  isFinite_div_const (by norm_num)

theorem isFinite_div_pos (ha : x.isFinite) (hb : y.isFinite)
    (hpos : gtB y (fin 0) = true) : (x / y).isFinite := by
  obtain ⟨qa, rfl⟩ := isFinite_iff.mp ha
  obtain ⟨qb, rfl⟩ := isFinite_iff.mp hb
  rw [gtB_fin_fin, decide_eq_true_eq] at hpos
  rw [fin_div_fin (by linarith)]
  trivial

theorem isFinite_guard_mul100 (ha : x.isFinite) (hb : y.isFinite) :
    (if gtB y (fin 0) then (x / y) * fin 100 else fin 0).isFinite := by
  by_cases hq : gtB y (fin 0) = true
  · rw [if_pos hq]
    exact isFinite_mul.mpr ⟨isFinite_div_pos ha hb hq, trivial⟩
  · rw [if_neg hq]
    trivial

theorem isFinite_guard_div (ha : x.isFinite) (hb : y.isFinite) :
    (if gtB y (fin 0) then x / y else fin 0).isFinite := by
  by_cases hq : gtB y (fin 0) = true
  · rw [if_pos hq]
    exact isFinite_div_pos ha hb hq
  · rw [if_neg hq]
    trivial

theorem gtB_eq_false_of_leB (h : leB x (fin 0) = true) : gtB x (fin 0) = false := by
  cases x <;> simp_all [leB, gtB, ltB]

end JSNum

@[simp] theorem isFinite_jsFloor {x : JSNum} : (jsFloor x).isFinite ↔ x.isFinite := by
  cases x <;> simp [jsFloor, JSNum.isFinite]

theorem percentOr_falsy {v : Option Value} {d : ℚ}
    (h : (jsParseFloat v).truthyB = false) : percentOr v d = .fin d := by
  simp [percentOr, JSNum.orDefault, h]

theorem percentOr_of_fin {v : Option Value} {d q : ℚ}
    (h : jsParseFloat v = .fin q) (hq : q ≠ 0) : percentOr v d = .fin q := by
  simp [percentOr, JSNum.orDefault, h, JSNum.truthyB, hq]

theorem percentOr_finite {v : Option Value} {d : ℚ}
    (h1 : jsParseFloat v ≠ .inf) (h2 : jsParseFloat v ≠ .ninf) :
    (percentOr v d).isFinite := by
  cases h : jsParseFloat v with
  | fin q =>
      by_cases hq : q = 0 <;>
        simp [percentOr, JSNum.orDefault, h, JSNum.truthyB, hq, JSNum.isFinite]
  | inf => exact absurd h h1
  | ninf => exact absurd h h2
  | nan => simp [percentOr, JSNum.orDefault, h, JSNum.truthyB, JSNum.isFinite]

theorem parseCurrency_num {q : ℚ} (hq : q ≠ 0) : parseCurrency (some (.num q)) = .fin q := by
  simp [parseCurrency, truthyO, Value.truthy, hq]

@[simp] theorem fin_div_100 {a : ℚ} : JSNum.fin a / JSNum.fin 100 = .fin (a / 100) :=
  JSNum.fin_div_fin (by norm_num)
@[simp] theorem fin_div_12 {a : ℚ} : JSNum.fin a / JSNum.fin 12 = .fin (a / 12) :=
  JSNum.fin_div_fin (by norm_num)

theorem not_ws_of_digit {c : Char} (h : c.isDigit = true) : isWSjs c = false := by
  simp only [isWSjs, Bool.or_eq_false_iff, decide_eq_false_iff_not]
  refine ⟨⟨⟨⟨⟨⟨?_, ?_⟩, ?_⟩, ?_⟩, ?_⟩, ?_⟩, ?_⟩ <;>
    (rintro rfl; exact absurd h (by decide))

theorem takeWhile_all {p : Char → Bool} :
    ∀ {l : List Char}, (∀ c ∈ l, p c = true) → l.takeWhile p = l := by
  intro l
  induction l with
  | nil => simp
  | cons a t ih =>
    intro h
    rw [List.takeWhile_cons, if_pos (h a (by simp))]
    rw [ih (fun c hc => h c (by simp [hc]))]

theorem dropWhile_all {p : Char → Bool} :
    ∀ {l : List Char}, (∀ c ∈ l, p c = true) → l.dropWhile p = [] := by
  intro l
  induction l with
  | nil => simp
  | cons a t ih =>
    intro h
    rw [List.dropWhile_cons, if_pos (h a (by simp))]
    exact ih (fun c hc => h c (by simp [hc]))

theorem span_all_digits {l : List Char} (hd : ∀ c ∈ l, c.isDigit = true) :
    l.span Char.isDigit = (l, []) := by
  rw [List.span_eq_take_drop, takeWhile_all hd, dropWhile_all hd]

theorem readSign_digit {a : Char} (h : a.isDigit = true) (t : List Char) :
    readSign (a :: t) = (false, a :: t) := by
  unfold readSign
  split
  · rename_i heq
    injection heq with h1 _
    subst h1
    exact absurd h (by decide)
  · rename_i heq
    injection heq with h1 _
    subst h1
    exact absurd h (by decide)
  · rfl

theorem infinity_prefix_digit {a : Char} (h : a.isDigit = true) (t : List Char) :
    (['I', 'n', 'f', 'i', 'n', 'i', 't', 'y'].isPrefixOf (a :: t)) = false := by
  have hI : ('I' == a) = false := by
    rw [beq_eq_false_iff_ne]
    rintro rfl
    exact absurd h (by decide)
  simp [List.isPrefixOf, hI]

theorem parseFloatCore_digits {a : Char} {t : List Char}
    (hd : ∀ c ∈ a :: t, c.isDigit = true) :
    parseFloatCore (a :: t) = .fin ((natOfDigits (a :: t) : ℕ) : ℚ) := by
  have ha : a.isDigit = true := hd a (by simp)
  simp only [parseFloatCore, List.dropWhile_cons, not_ws_of_digit ha, Bool.false_eq_true,
    if_false, readSign_digit ha, infinity_prefix_digit ha, span_all_digits hd]
  simp [natOfDigits]

theorem parseFloatCore_digits2 {l : List Char} (hne : l ≠ [])
    (hd : ∀ c ∈ l, c.isDigit = true) :
    parseFloatCore l = .fin ((natOfDigits l : ℕ) : ℚ) := by
  obtain ⟨a, t, rfl⟩ := List.exists_cons_of_ne_nil hne
  exact parseFloatCore_digits hd

theorem orZero_natCast (n : ℕ) : (JSNum.fin ((n : ℕ) : ℚ)).orZero = .fin ((n : ℕ) : ℚ) := by
  rcases Nat.eq_zero_or_pos n with h | h
  · subst h
    simp [JSNum.orZero, JSNum.truthyB]
  · exact JSNum.orZero_fin (by exact_mod_cast Nat.pos_iff_ne_zero.mp h)

theorem parseCurrency_digits (s : String)
    (hs : truthyO (some (.str s)) = true)
    (hne : (stripCur s).data ≠ [])
    (hd : ∀ c ∈ (stripCur s).data, c.isDigit = true) :
    parseCurrency (some (.str s)) = .fin ((natOfDigits ((stripCur s).data) : ℕ) : ℚ) := by
  simp only [parseCurrency, hs, if_true]
  rw [show jsParseFloatS (stripCur s) = parseFloatCore ((stripCur s).data) from rfl]
  rw [parseFloatCore_digits2 hne hd]
  exact orZero_natCast _

theorem digitsBE_digits (n : ℕ) : ∀ c ∈ digitsBE n, c.isDigit = true := by
  intro c hc
  unfold digitsBE at hc
  split at hc
  · simp at hc
    subst hc
    decide
  · rw [List.mem_reverse, List.mem_map] at hc
    obtain ⟨d, hd, rfl⟩ := hc
    have : d < 10 := Nat.digits_lt_base (by norm_num) hd
    interval_cases d <;> decide

theorem digitsBE_ne_nil (n : ℕ) : digitsBE n ≠ [] := by
  unfold digitsBE
  split
  · simp
  · rename_i h
    simp only [ne_eq, List.reverse_eq_nil_iff, List.map_eq_nil_iff]
    exact Nat.digits_ne_nil_iff_ne_zero.mpr h

theorem digVal_digitChar {d : ℕ} (h : d < 10) : digVal (digitChar d) = d := by
  interval_cases d <;> decide

theorem foldr_digitChar_eq_ofDigits (ds : List ℕ) (h : ∀ d ∈ ds, d < 10) :
    ds.foldr (fun d acc => 10 * acc + digVal (digitChar d)) 0 = Nat.ofDigits 10 ds := by
  induction ds with
  | nil => simp [Nat.ofDigits]
  | cons d l ih =>
    rw [List.foldr_cons, Nat.ofDigits_cons]
    rw [ih (fun x hx => h x (by simp [hx]))]
    rw [digVal_digitChar (h d (by simp))]
    ring

theorem natOfDigits_digitsBE (n : ℕ) : natOfDigits (digitsBE n) = n := by
  unfold digitsBE
  split
  · rename_i h
    subst h
    decide
  · unfold natOfDigits
    rw [List.foldl_reverse, List.foldr_map]
    rw [foldr_digitChar_eq_ofDigits _ (fun d hd => Nat.digits_lt_base (by norm_num) hd)]
    exact Nat.ofDigits_digits 10 n

theorem keep_of_digit {c : Char} (h : c.isDigit = true) :
    (!(c = '£' || c = ',' || isWSjs c)) = true := by
  have h1 : ¬ c = '£' := by rintro rfl; exact absurd h (by decide)
  have h2 : ¬ c = ',' := by rintro rfl; exact absurd h (by decide)
  simp [h1, h2, not_ws_of_digit h]

theorem filter_groupLE :
    ∀ l : List Char, (∀ c ∈ l, c.isDigit = true) →
      (groupLE l).filter (fun c => !(c = '£' || c = ',' || isWSjs c)) = l := by
  intro l
  induction l using groupLE.induct with
  | case1 a b c d rest ih =>
    intro h
    rw [groupLE]
    simp only [List.filter_cons]
    rw [ih (fun x hx => h x (by simp [hx]))]
    simp [keep_of_digit (h a (by simp)), keep_of_digit (h b (by simp)),
      keep_of_digit (h c (by simp))]
  | case2 l hne =>
    intro h
    have hg : groupLE l = l := by
      rcases l with _ | ⟨a, _ | ⟨b, _ | ⟨c, _ | ⟨d, rest⟩⟩⟩⟩
      · rfl
      · rfl
      · rfl
      · rfl
      · exact ((hne a b c d rest rfl).elim)
    rw [hg]
    exact List.filter_eq_self.mpr (fun c hc => keep_of_digit (h c hc))

theorem stripCur_format (n : ℕ) :
    (stripCur ("£" ++ groupedDigits n)).data = digitsBE n := by
  show (("£" ++ groupedDigits n).data.filter
      (fun c => !(c = '£' || c = ',' || isWSjs c))) = digitsBE n
  rw [String.data_append]
  rw [show ("£".data) = ['£'] from rfl]
  rw [show (groupedDigits n).data = (groupLE ((digitsBE n).reverse)).reverse from rfl]
  rw [List.cons_append, List.nil_append, List.filter_cons]
  rw [if_neg (by decide)]
  rw [List.filter_reverse]
  rw [filter_groupLE _ (fun c hc => digitsBE_digits n c (List.mem_reverse.mp hc))]
  exact List.reverse_reverse _

theorem find?_of_findIdx?_some {α : Type} {p : α → Bool} :
    ∀ {l : List α} {i : ℕ}, l.findIdx? p = some i →
      ∃ h : i < l.length, l.find? p = some (l.get ⟨i, h⟩) := by
  intro l
  induction l with
  | nil =>
    intro i h
    simp at h
  | cons a t ih =>
    intro i h
    rw [List.findIdx?_cons] at h
    by_cases hp : p a = true
    · rw [if_pos hp] at h
      have : i = 0 := (Option.some.inj h).symm
      subst this
      exact ⟨by simp, by simp [List.find?_cons_of_pos _ hp]⟩
    · rw [if_neg hp, List.findIdx?_succ] at h
      obtain ⟨j, hj, rfl⟩ := Option.map_eq_some'.mp h
      obtain ⟨hlt, hfind⟩ := ih hj
      refine ⟨by simpa using Nat.succ_lt_succ hlt, ?_⟩
      rw [List.find?_cons_of_neg _ hp]
      simpa using hfind


theorem calculateStandardBTL_allFinite {d : Data} (h : noInfInputs d) :
    allFinite (calculateStandardBTL d) := by
  have pc : ∀ k, (parseCurrency (d.get k)).isFinite := fun k => (h k).1
  have pf : ∀ k (dflt : ℚ), (percentOr (d.get k) dflt).isFinite :=
    fun k dflt => percentOr_finite (h k).2.1 (h k).2.2
  simp only [calculateStandardBTL, allFinite, and_true]
  refine ⟨pc _, ?_, ?_, ?_, ?_, pc _, ?_, ?_, ?_, ?_, ?_⟩
  · simp [JSNum.isFinite_mul, pc, pf]
  · simp [JSNum.isFinite_sub, JSNum.isFinite_mul, pc, pf]
  · simp [JSNum.isFinite_add, JSNum.isFinite_mul, pc, pf]
  · simp [JSNum.isFinite_mul, pc]
  · exact JSNum.isFinite_guard_mul100 (by simp [JSNum.isFinite_mul, pc]) (pc _)
  · simp [JSNum.isFinite_add, JSNum.isFinite_sub, JSNum.isFinite_mul, pc, pf]
  · simp [JSNum.isFinite_sub, JSNum.isFinite_add, JSNum.isFinite_mul, pc, pf]
  · simp [JSNum.isFinite_sub, JSNum.isFinite_add, JSNum.isFinite_mul, pc, pf]
  · exact JSNum.isFinite_guard_mul100
      (by simp [JSNum.isFinite_sub, JSNum.isFinite_add, JSNum.isFinite_mul, pc, pf])
      (by simp [JSNum.isFinite_add, JSNum.isFinite_mul, pc, pf])

theorem calculateBRR_allFinite {d : Data} (h : noInfInputs d) :
    allFinite (calculateBRR d) := by
  have pc : ∀ k, (parseCurrency (d.get k)).isFinite := fun k => (h k).1
  have pf : ∀ k (dflt : ℚ), (percentOr (d.get k) dflt).isFinite :=
    fun k dflt => percentOr_finite (h k).2.1 (h k).2.2
  simp only [calculateBRR, allFinite, and_true]
  refine ⟨?_, ?_, ?_, ?_, ?_, ?_, ?_, ?_, ?_, ?_, ?_, ?_, ?_, ?_, ?_⟩ <;>
    first
      | exact pc _
      | exact pf _ _
      | (simp [JSNum.isFinite_add, JSNum.isFinite_sub, JSNum.isFinite_mul, pc, pf]; done)
      | (apply JSNum.isFinite_guard_mul100 <;>
          simp [JSNum.isFinite_add, JSNum.isFinite_sub, JSNum.isFinite_mul, pc, pf])

theorem calculateFlip_allFinite {d : Data} (h : noInfInputs d) :
    allFinite (calculateFlip d) := by
  have pc : ∀ k, (parseCurrency (d.get k)).isFinite := fun k => (h k).1
  have pf : ∀ k (dflt : ℚ), (percentOr (d.get k) dflt).isFinite :=
    fun k dflt => percentOr_finite (h k).2.1 (h k).2.2
  simp only [calculateFlip, allFinite, and_true]
  refine ⟨?_, ?_, ?_, ?_, ?_, ?_, ?_, ?_, ?_⟩ <;>
    first
      | exact pc _
      | exact pf _ _
      | (simp [JSNum.isFinite_add, JSNum.isFinite_sub, JSNum.isFinite_mul, pc, pf]; done)
      | (apply JSNum.isFinite_guard_mul100 <;>
          simp [JSNum.isFinite_add, JSNum.isFinite_sub, JSNum.isFinite_mul, pc, pf])
      | (apply JSNum.isFinite_guard_div <;>
          first
            | exact pf _ _
            | (apply JSNum.isFinite_guard_mul100 <;>
                simp [JSNum.isFinite_add, JSNum.isFinite_sub, JSNum.isFinite_mul, pc, pf]))

theorem calculateHolidayLet_allFinite {d : Data} (h : noInfInputs d) :
    allFinite (calculateHolidayLet d) := by
  have pc : ∀ k, (parseCurrency (d.get k)).isFinite := fun k => (h k).1
  have pf : ∀ k (dflt : ℚ), (percentOr (d.get k) dflt).isFinite :=
    fun k dflt => percentOr_finite (h k).2.1 (h k).2.2
  simp only [calculateHolidayLet, allFinite, and_true]
  refine ⟨?_, ?_, ?_, ?_, ?_, ?_, ?_, ?_, ?_, ?_, ?_, ?_⟩ <;>
    first
      | exact pc _
      | exact pf _ _
      | (simp [JSNum.isFinite_add, JSNum.isFinite_sub, JSNum.isFinite_mul, pc, pf]; done)
      | (apply JSNum.isFinite_guard_mul100 <;>
          simp [JSNum.isFinite_add, JSNum.isFinite_sub, JSNum.isFinite_mul, pc, pf])

theorem calculateRentToHMO_allFinite {d : Data} (h : noInfInputs d) :
    allFinite (calculateRentToHMO d) := by
  have pc : ∀ k, (parseCurrency (d.get k)).isFinite := fun k => (h k).1
  have pf : ∀ k (dflt : ℚ), (percentOr (d.get k) dflt).isFinite :=
    fun k dflt => percentOr_finite (h k).2.1 (h k).2.2
  simp only [calculateRentToHMO, allFinite, and_true]
  refine ⟨?_, ?_, ?_, ?_, ?_, ?_, ?_, ?_, ?_, ?_, ?_⟩ <;>
    first
      | exact pc _
      | exact pf _ _
      | (simp [isFinite_jsFloor, JSNum.isFinite_add, JSNum.isFinite_sub,
          JSNum.isFinite_mul, pc, pf]; done)
      | (apply JSNum.isFinite_guard_mul100 <;>
          simp [isFinite_jsFloor, JSNum.isFinite_add, JSNum.isFinite_sub,
            JSNum.isFinite_mul, pc, pf])

theorem calculateRentToServiced_allFinite {d : Data} (h : noInfInputs d) :
    allFinite (calculateRentToServiced d) := by
  have pc : ∀ k, (parseCurrency (d.get k)).isFinite := fun k => (h k).1
  have pf : ∀ k (dflt : ℚ), (percentOr (d.get k) dflt).isFinite :=
    fun k dflt => percentOr_finite (h k).2.1 (h k).2.2
  simp only [calculateRentToServiced, allFinite, and_true]
  refine ⟨?_, ?_, ?_, ?_, ?_, ?_, ?_, ?_, ?_, ?_⟩ <;>
    first
      | exact pc _
      | exact pf _ _
      | (simp [JSNum.isFinite_add, JSNum.isFinite_sub, JSNum.isFinite_mul, pc, pf]; done)
      | (apply JSNum.isFinite_guard_mul100 <;>
          simp [JSNum.isFinite_add, JSNum.isFinite_sub, JSNum.isFinite_mul, pc, pf])

theorem calculateInvestment_allFinite {d : Data} (h : noInfInputs d) :
    allFinite (calculateInvestment d) := by
  simp only [calculateInvestment]
  split_ifs <;>
    first
      | exact calculateStandardBTL_allFinite h
      | exact calculateBRR_allFinite h
      | exact calculateFlip_allFinite h
      | exact calculateHolidayLet_allFinite h
      | exact calculateRentToHMO_allFinite h
      | exact calculateRentToServiced_allFinite h

theorem defaults_std : calculateStandardBTL ([] : Data)
    = calculateStandardBTL [("deposit_percent", .num 20), ("mortgage_rate", .num 5.8)] := by
  simp only [calculateStandardBTL]
  rw [show percentOr (Data.get [("deposit_percent", Value.num 20),
        ("mortgage_rate", Value.num 5.8)] "mortgage_rate") 5.8 = .fin 5.8 from by
    rw [show Data.get [("deposit_percent", Value.num 20),
        ("mortgage_rate", Value.num 5.8)] "mortgage_rate" = some (.num 5.8) from rfl]
    exact percentOr_of_fin rfl (by norm_num)]
  exact rfl

theorem defaults_brr : calculateBRR ([] : Data)
    = calculateBRR [("deposit_percent", .num 20), ("mortgage_rate", .num 5.8),
        ("refinance_ltv", .num 75)] := by
  simp only [calculateBRR]
  rw [show percentOr (Data.get [("deposit_percent", Value.num 20), ("mortgage_rate", Value.num 5.8),
        ("refinance_ltv", Value.num 75)] "mortgage_rate") 5.8 = .fin 5.8 from by
    rw [show Data.get [("deposit_percent", Value.num 20), ("mortgage_rate", Value.num 5.8),
        ("refinance_ltv", Value.num 75)] "mortgage_rate" = some (.num 5.8) from rfl]
    exact percentOr_of_fin rfl (by norm_num)]
  exact rfl

theorem defaults_flip : calculateFlip ([] : Data)
    = calculateFlip [("holding_period", .num 6)] := rfl

theorem defaults_holiday : calculateHolidayLet ([] : Data)
    = calculateHolidayLet [("deposit_percent", .num 20), ("mortgage_rate", .num 5.8),
        ("occupancy_rate", .num 50), ("management_fee", .num 20)] := by
  simp only [calculateHolidayLet]
  rw [show percentOr (Data.get [("deposit_percent", Value.num 20), ("mortgage_rate", Value.num 5.8),
        ("occupancy_rate", Value.num 50), ("management_fee", Value.num 20)] "mortgage_rate") 5.8
      = .fin 5.8 from by
    rw [show Data.get [("deposit_percent", Value.num 20), ("mortgage_rate", Value.num 5.8),
        ("occupancy_rate", Value.num 50), ("management_fee", Value.num 20)] "mortgage_rate"
        = some (.num 5.8) from rfl]
    exact percentOr_of_fin rfl (by norm_num)]
  exact rfl

theorem defaults_hmo : calculateRentToHMO ([] : Data)
    = calculateRentToHMO [("number_of_rooms", .num 1), ("occupancy_rate", .num 80)] := rfl

theorem defaults_serviced : calculateRentToServiced ([] : Data)
    = calculateRentToServiced [("occupancy_rate", .num 60), ("management_fee", .num 20)] := rfl

theorem epc_center_letter_consistent (y : ℚ) (s : ℤ) :
    ∃ i : Fin epcBands.length,
      bandCenterY y s = y + (i : ℚ) * (barHeight + barSpacing) + barHeight / 2 ∧
      letterFor s = (epcBands.get i).grade := by
  rcases hidx : epcBands.findIdx? (fun b => decide (s ≥ b.min) && decide (s ≤ b.max)) with _ | i
  · refine ⟨⟨6, by decide⟩, ?_, ?_⟩
    · rw [bandCenterY, hidx]
      norm_num [epcBands]
    · rw [letterFor, List.find?_eq_none.mpr (fun b hb => ?_)]
      · decide
      · have := List.findIdx?_eq_none_iff.mp hidx b hb
        simp [this]
  · obtain ⟨hlt, hfind⟩ := find?_of_findIdx?_some hidx
    refine ⟨⟨i, hlt⟩, ?_, ?_⟩
    · rw [bandCenterY, hidx]
    · rw [letterFor, hfind]

theorem epc_outside_defaults {s : ℤ} (hs : s < 1 ∨ 100 < s) :
    letterFor s = "G" ∧
    ∀ y : ℚ, bandCenterY y s = y + 6 * (barHeight + barSpacing) + barHeight / 2 := by
  have hall : ∀ b ∈ epcBands, (decide (s ≥ b.min) && decide (s ≤ b.max)) = false := by
    intro b hb
    fin_cases hb <;> simp <;> omega
  constructor
  · rw [letterFor, List.find?_eq_none.mpr (fun b hb => by simp [hall b hb])]
  · intro y
    rw [bandCenterY, List.findIdx?_eq_none_iff.mpr hall]
    norm_num [epcBands]

theorem currentScore_default {d : Data} (h1 : d.get "current_rating" = none)
    (h2 : d.get "epc_rating" = none) : currentScore d = 84 := by
  rw [currentScore, h1, h2]
  decide

theorem potentialScore_default {d : Data} (h : d.get "potential_rating" = none) :
    potentialScore d = 72 := by
  rw [potentialScore, h]
  decide

theorem roiGuardOK_of {r : Result} {basisKey profitKey : String} {b p : JSNum}
    (hb : r.get basisKey = some b) (hp : r.get profitKey = some p)
    (hroi : r.get "roi" = some (if JSNum.gtB b (.fin 0) then (p / b) * .fin 100 else .fin 0)) :
    roiGuardOK r basisKey profitKey := by
  unfold roiGuardOK
  rw [hb, hp]
  simp only [Option.getD_some]
  refine ⟨fun hle => ?_, fun hgt => ?_, fun hgt => ?_⟩
  · rw [hroi, if_neg (by simp [JSNum.gtB_eq_false_of_leB hle])]
  · rw [hroi, if_neg (by simp [hgt])]
  · rw [hroi, if_pos hgt]


theorem fpLoop_evs (last : String) :
    ∀ (l : List String) (cur : List Ev), (∀ e ∈ cur, fpEv e) →
      ∀ pg ∈ fpLoop last l cur, ∀ e ∈ pg, fpEv e := by
  intro l
  induction l with
  | nil =>
    intro cur hcur pg hpg e he
    simp only [fpLoop, List.mem_singleton] at hpg
    subst hpg
    exact hcur e he
  | cons p rest ih =>
    intro cur hcur pg hpg e he
    have hcur2 : ∀ e ∈ cur ++ floorPlanEvs (some p), fpEv e := by
      intro e he
      rcases List.mem_append.mp he with h | h
      · exact hcur e h
      · simp only [floorPlanEvs, List.mem_cons, List.not_mem_nil, or_false] at h
        rcases h with rfl | rfl | rfl
        · exact Or.inl rfl
        · exact Or.inr (Or.inl rfl)
        · exact Or.inr (Or.inr ⟨_, rfl⟩)
    rw [fpLoop] at hpg
    split at hpg
    · rcases List.mem_cons.mp hpg with rfl | hpg2
      · exact hcur2 e he
      · exact ih [] (by simp) pg hpg2 e he
    · exact ih _ hcur2 pg hpg e he

theorem galLoop_evs (titleH : ℚ) :
    ∀ (l : List String) (y : ℚ) (cur : List Ev), (∀ e ∈ cur, galEv e) →
      ∀ pg ∈ galLoop titleH l y cur, ∀ e ∈ pg, galEv e := by
  intro l
  induction l with
  | nil =>
    intro y cur hcur pg hpg e he
    simp only [galLoop, List.mem_singleton] at hpg
    subst hpg
    exact hcur e he
  | cons p rest ih =>
    intro y cur hcur pg hpg e he
    rw [galLoop] at hpg
    split at hpg
    · rcases List.mem_cons.mp hpg with rfl | hpg2
      · exact hcur e he
      · refine ih _ _ (fun e he => ?_) pg hpg2 e he
        simp only [List.mem_cons, List.not_mem_nil, or_false] at he
        rcases he with rfl | rfl | rfl
        · exact Or.inl rfl
        · exact Or.inr (Or.inl rfl)
        · exact Or.inr (Or.inr ⟨_, rfl⟩)
    · refine ih _ _ (fun e he => ?_) pg hpg e he
      rcases List.mem_append.mp he with h | h
      · exact hcur e h
      · simp only [List.mem_singleton] at h
        subst h
        exact Or.inr (Or.inr ⟨_, rfl⟩)

theorem floorPlanPages_evs {fps : List String} :
    ∀ pg ∈ floorPlanPages fps, ∀ e ∈ pg, fpEv e := by
  intro pg hpg e he
  unfold floorPlanPages at hpg
  rcases fps with _ | ⟨p, rest⟩
  · simp only [List.mem_singleton] at hpg
    subst hpg
    simp only [floorPlanEvs, List.mem_cons, List.not_mem_nil, or_false] at he
    rcases he with rfl | rfl | rfl
    · exact Or.inl rfl
    · exact Or.inr (Or.inl rfl)
    · exact Or.inr (Or.inr ⟨_, rfl⟩)
  · exact fpLoop_evs _ _ [] (by simp) pg hpg e he

theorem galleryPages_evs {imgs : List String} {titleH : ℚ} :
    ∀ pg ∈ galleryPages imgs titleH, ∀ e ∈ pg, galEv e := by
  intro pg hpg e he
  unfold galleryPages at hpg
  rcases imgs with _ | ⟨p, rest⟩
  · simp only [List.mem_singleton] at hpg
    subst hpg
    simp at he
  · refine galLoop_evs _ _ _ _ (fun e he => ?_) pg hpg e he
    simp only [List.mem_cons, List.not_mem_nil, or_false] at he
    rcases he with rfl | rfl
    · exact Or.inl rfl
    · exact Or.inr (Or.inl rfl)

theorem investmentPages_shape {d : Data} :
    ∀ pg ∈ investmentPages d, pg = [] ∨ ∃ ct, pg = [Ev.header, Ev.calcSection ct] := by
  intro pg hpg
  unfold investmentPages at hpg
  rcases hn : normalizeCalculators d with _ | ⟨c, cs⟩
  · rw [hn] at hpg
    simp only [List.mem_singleton] at hpg
    exact Or.inl hpg
  · rw [hn] at hpg
    rcases List.mem_map.mp hpg with ⟨ct, _, rfl⟩
    exact Or.inr ⟨ct, rfl⟩

theorem not_inv_of_fpEv {pg : List Ev} (h : ∀ e ∈ pg, fpEv e) :
    isInvestmentPage pg = false := by
  rw [isInvestmentPage, List.any_eq_false]
  intro e he
  rcases h e he with rfl | rfl | ⟨p, rfl⟩ <;> simp

theorem not_gal_of_fpEv {pg : List Ev} (h : ∀ e ∈ pg, fpEv e) :
    isGalleryPage pg = false := by
  rw [isGalleryPage, List.any_eq_false]
  intro e he
  rcases h e he with rfl | rfl | ⟨p, rfl⟩ <;> simp

theorem not_inv_of_galEv {pg : List Ev} (h : ∀ e ∈ pg, galEv e) :
    isInvestmentPage pg = false := by
  rw [isInvestmentPage, List.any_eq_false]
  intro e he
  rcases h e he with rfl | rfl | ⟨p, rfl⟩ <;> simp

theorem not_fp_of_galEv {pg : List Ev} (h : ∀ e ∈ pg, galEv e) :
    isFloorPlanPage pg = false := by
  rw [isFloorPlanPage, List.any_eq_false]
  intro e he
  rcases h e he with rfl | rfl | ⟨p, rfl⟩ <;> simp

theorem not_fp_of_invPage {d : Data} {pg : List Ev} (h : pg ∈ investmentPages d) :
    isFloorPlanPage pg = false := by
  rcases investmentPages_shape pg h with rfl | ⟨ct, rfl⟩ <;> simp [isFloorPlanPage]

theorem not_gal_of_invPage {d : Data} {pg : List Ev} (h : pg ∈ investmentPages d) :
    isGalleryPage pg = false := by
  rcases investmentPages_shape pg h with rfl | ⟨ct, rfl⟩ <;> simp [isGalleryPage]

theorem countP_inv_fp (fps : List String) :
    (floorPlanPages fps).countP isInvestmentPage = 0 :=
  List.countP_eq_zero.mpr (fun pg hpg => by
    simp [not_inv_of_fpEv (floorPlanPages_evs pg hpg)])

theorem countP_inv_gal (imgs : List String) (titleH : ℚ) :
    (galleryPages imgs titleH).countP isInvestmentPage = 0 :=
  List.countP_eq_zero.mpr (fun pg hpg => by
    simp [not_inv_of_galEv (galleryPages_evs pg hpg)])

theorem countP_fp_inv (d : Data) :
    (investmentPages d).countP isFloorPlanPage = 0 :=
  List.countP_eq_zero.mpr (fun pg hpg => by simp [not_fp_of_invPage hpg])

theorem countP_gal_inv (d : Data) :
    (investmentPages d).countP isGalleryPage = 0 :=
  List.countP_eq_zero.mpr (fun pg hpg => by simp [not_gal_of_invPage hpg])

theorem countP_fp_gal (imgs : List String) (titleH : ℚ) :
    (galleryPages imgs titleH).countP isFloorPlanPage = 0 :=
  List.countP_eq_zero.mpr (fun pg hpg => by
    simp [not_fp_of_galEv (galleryPages_evs pg hpg)])

theorem countP_gal_fp (fps : List String) :
    (floorPlanPages fps).countP isGalleryPage = 0 :=
  List.countP_eq_zero.mpr (fun pg hpg => by
    simp [not_gal_of_fpEv (floorPlanPages_evs pg hpg)])

theorem normalize_arr {d : Data} {cts : List String}
    (hd : d.get "selected_calculators" = some (.arr cts)) (h : cts ≠ []) :
    normalizeCalculators d = cts.map Value.str := by
  rcases cts with _ | ⟨c, cs⟩
  · exact absurd rfl h
  · unfold normalizeCalculators
    rw [hd]
    rfl

theorem countP_sections (l : List Value) :
    (l.map (fun ct => [Ev.header, Ev.calcSection ct])).countP isInvestmentPage = l.length := by
  induction l with
  | nil => rfl
  | cons a t ih => simp [List.countP_cons, isInvestmentPage, ih]

theorem countP_inv_investPages {d : Data} {cts : List String}
    (hd : d.get "selected_calculators" = some (.arr cts)) (hne : cts ≠ []) :
    (investmentPages d).countP isInvestmentPage = cts.length := by
  unfold investmentPages
  rw [normalize_arr hd hne]
  rcases cts with _ | ⟨c, cs⟩
  · exact absurd rfl hne
  · have hred : (match Value.str c :: List.map Value.str cs with
        | [] => [([] : List Ev)]
        | cts => cts.map (fun ct => [Ev.header, Ev.calcSection ct]))
        = (Value.str c :: cs.map Value.str).map (fun ct => [Ev.header, Ev.calcSection ct]) := rfl
    rw [show ((c :: cs).map Value.str) = Value.str c :: cs.map Value.str from rfl, hred,
      countP_sections]
    simp

theorem countInvestment (d : Data) (im : Images) (titleH : ℚ) {cts : List String}
    (hd : d.get "selected_calculators" = some (.arr cts)) (hne : cts ≠ []) :
    (generatePDFPages d im titleH).countP isInvestmentPage = cts.length := by
  unfold generatePDFPages
  simp only [List.countP_append]
  rw [countP_inv_fp, countP_inv_gal, countP_inv_investPages hd hne]
  simp [isInvestmentPage]

theorem countFloorPlan (d : Data) (im : Images) (titleH : ℚ)
    (hfp : im.floor_plans = none ∨ im.floor_plans = some []) :
    (generatePDFPages d im titleH).countP isFloorPlanPage = 1 := by
  unfold generatePDFPages
  simp only [List.countP_append]
  rw [countP_fp_inv, countP_fp_gal]
  have hfp2 : im.floor_plans.getD [] = [] := by rcases hfp with h | h <;> simp [h]
  rw [hfp2]
  simp [isFloorPlanPage, floorPlanPages, floorPlanEvs, List.countP_cons]

theorem countGallery (d : Data) (im : Images) (titleH : ℚ)
    (hg : galleryList im = []) :
    (generatePDFPages d im titleH).countP isGalleryPage = 0 := by
  unfold generatePDFPages
  simp only [List.countP_append]
  rw [countP_gal_inv, countP_gal_fp, hg]
  simp [isGalleryPage, galleryPages, List.countP_cons]


/-! ## Claim theorems -/

/-- C1: on the spec's Standard-BTL example input, `calculateStandardBTL`
returns depositAmount 50000, mortgageAmount 150000, annualRent 14400,
rentalYield 7.2, totalAnnualExpenses 7815 (the intermediate annual
mortgage interest, mortgageAmount × mortgageRate/100, being 7500),
annualProfit 6585 and roi 13.17. -/
theorem C1_standard_btl_example :
    (calculateStandardBTL stdBTLExampleData).get "depositAmount" = some (.fin 50000) ∧
    (calculateStandardBTL stdBTLExampleData).get "mortgageAmount" = some (.fin 150000) ∧
    (calculateStandardBTL stdBTLExampleData).get "annualRent" = some (.fin 14400) ∧
    (calculateStandardBTL stdBTLExampleData).get "rentalYield" = some (.fin 7.2) ∧
    (calculateStandardBTL stdBTLExampleData).get "totalAnnualExpenses" = some (.fin 7815) ∧
    (((calculateStandardBTL stdBTLExampleData).get "mortgageAmount").getD .nan)
        * ((percentOr (stdBTLExampleData.get "mortgage_rate") 5.8) / .fin 100)
      = .fin 7500 ∧
    (calculateStandardBTL stdBTLExampleData).get "annualProfit" = some (.fin 6585) ∧
    (calculateStandardBTL stdBTLExampleData).get "roi" = some (.fin 13.17) := by
  have hpp : parseCurrency (stdBTLExampleData.get "purchase_price") = .fin 200000 := by
    rw [show stdBTLExampleData.get "purchase_price" = some (.str "£200,000") from rfl]
    rw [parseCurrency_digits _ (by decide) (by decide) (by decide)]
    norm_num [show natOfDigits ((stripCur "£200,000").data) = 200000 from by decide]
  have hmr : parseCurrency (stdBTLExampleData.get "monthly_rent") = .fin 1200 := by
    rw [show stdBTLExampleData.get "monthly_rent" = some (.str "£1,200") from rfl]
    rw [parseCurrency_digits _ (by decide) (by decide) (by decide)]
    norm_num [show natOfDigits ((stripCur "£1,200").data) = 1200 from by decide]
  have hdp : percentOr (stdBTLExampleData.get "deposit_percent") 20 = .fin 25 := by
    rw [show stdBTLExampleData.get "deposit_percent" = some (.num 25) from rfl]
    exact percentOr_of_fin rfl (by norm_num)
  have hmrate : percentOr (stdBTLExampleData.get "mortgage_rate") 5.8 = .fin 5 := by
    rw [show stdBTLExampleData.get "mortgage_rate" = some (.num 5) from rfl]
    exact percentOr_of_fin rfl (by norm_num)
  have hct : parseCurrency (stdBTLExampleData.get "council_tax") = .fin 150 := by
    rw [show stdBTLExampleData.get "council_tax" = some (.num 150) from rfl]
    exact parseCurrency_num (by norm_num)
  have hrm : parseCurrency (stdBTLExampleData.get "repairs_maintenance") = .fin 50 := by
    rw [show stdBTLExampleData.get "repairs_maintenance" = some (.num 50) from rfl]
    exact parseCurrency_num (by norm_num)
  have hut : parseCurrency (stdBTLExampleData.get "utilities") = .fin 40 := by
    rw [show stdBTLExampleData.get "utilities" = some (.num 40) from rfl]
    exact parseCurrency_num (by norm_num)
  have hwa : parseCurrency (stdBTLExampleData.get "water") = .fin 20 := by
    rw [show stdBTLExampleData.get "water" = some (.num 20) from rfl]
    exact parseCurrency_num (by norm_num)
  have hbb : parseCurrency (stdBTLExampleData.get "broadband_tv") = .fin 30 := by
    rw [show stdBTLExampleData.get "broadband_tv" = some (.num 30) from rfl]
    exact parseCurrency_num (by norm_num)
  have hin : parseCurrency (stdBTLExampleData.get "insurance") = .fin 25 := by
    rw [show stdBTLExampleData.get "insurance" = some (.num 25) from rfl]
    exact parseCurrency_num (by norm_num)
  have hsd : parseCurrency (stdBTLExampleData.get "stamp_duty") = .fin 0 := rfl
  have hsc : parseCurrency (stdBTLExampleData.get "survey_cost") = .fin 0 := rfl
  have hlf : parseCurrency (stdBTLExampleData.get "legal_fees") = .fin 0 := rfl
  have hls : parseCurrency (stdBTLExampleData.get "loan_setup") = .fin 0 := rfl
  refine ⟨?_, ?_, ?_, ?_, ?_, ?_, ?_, ?_⟩
  · rw [show (calculateStandardBTL stdBTLExampleData).get "depositAmount"
        = some (parseCurrency (stdBTLExampleData.get "purchase_price")
            * ((percentOr (stdBTLExampleData.get "deposit_percent") 20) / .fin 100)) from rfl]
    rw [hpp, hdp]
    simp only [fin_div_100, JSNum.fin_mul_fin]
    norm_num
  · rw [show (calculateStandardBTL stdBTLExampleData).get "mortgageAmount"
        = some (parseCurrency (stdBTLExampleData.get "purchase_price")
            - parseCurrency (stdBTLExampleData.get "purchase_price")
              * ((percentOr (stdBTLExampleData.get "deposit_percent") 20) / .fin 100)) from rfl]
    rw [hpp, hdp]
    simp only [fin_div_100, JSNum.fin_mul_fin, JSNum.fin_sub_fin]
    norm_num
  · rw [show (calculateStandardBTL stdBTLExampleData).get "annualRent"
        = some (parseCurrency (stdBTLExampleData.get "monthly_rent") * .fin 12) from rfl]
    rw [hmr]
    simp only [JSNum.fin_mul_fin]
    norm_num
  · rw [show (calculateStandardBTL stdBTLExampleData).get "rentalYield"
        = some (if JSNum.gtB (parseCurrency (stdBTLExampleData.get "purchase_price")) (.fin 0)
            then (parseCurrency (stdBTLExampleData.get "monthly_rent") * .fin 12
                / parseCurrency (stdBTLExampleData.get "purchase_price")) * .fin 100
            else .fin 0) from rfl]
    rw [hpp, hmr]
    simp only [JSNum.fin_mul_fin, JSNum.gtB_fin_fin, decide_eq_true_eq]
    rw [if_pos (by norm_num), JSNum.fin_div_fin (by norm_num), JSNum.fin_mul_fin]
    norm_num
  · rw [show (calculateStandardBTL stdBTLExampleData).get "totalAnnualExpenses"
        = some ((parseCurrency (stdBTLExampleData.get "purchase_price")
              - parseCurrency (stdBTLExampleData.get "purchase_price")
                * ((percentOr (stdBTLExampleData.get "deposit_percent") 20) / .fin 100))
              * ((percentOr (stdBTLExampleData.get "mortgage_rate") 5.8) / .fin 100)
            + parseCurrency (stdBTLExampleData.get "council_tax")
            + parseCurrency (stdBTLExampleData.get "repairs_maintenance")
            + parseCurrency (stdBTLExampleData.get "utilities")
            + parseCurrency (stdBTLExampleData.get "water")
            + parseCurrency (stdBTLExampleData.get "broadband_tv")
            + parseCurrency (stdBTLExampleData.get "insurance")) from rfl]
    rw [hpp, hdp, hmrate, hct, hrm, hut, hwa, hbb, hin]
    simp only [fin_div_100, JSNum.fin_mul_fin, JSNum.fin_sub_fin, JSNum.fin_add_fin]
    norm_num
  · rw [show ((calculateStandardBTL stdBTLExampleData).get "mortgageAmount").getD .nan
        = parseCurrency (stdBTLExampleData.get "purchase_price")
            - parseCurrency (stdBTLExampleData.get "purchase_price")
              * ((percentOr (stdBTLExampleData.get "deposit_percent") 20) / .fin 100) from rfl]
    rw [hpp, hdp, hmrate]
    simp only [fin_div_100, JSNum.fin_mul_fin, JSNum.fin_sub_fin]
    norm_num
  · rw [show (calculateStandardBTL stdBTLExampleData).get "annualProfit"
        = some (parseCurrency (stdBTLExampleData.get "monthly_rent") * .fin 12
            - ((parseCurrency (stdBTLExampleData.get "purchase_price")
                - parseCurrency (stdBTLExampleData.get "purchase_price")
                  * ((percentOr (stdBTLExampleData.get "deposit_percent") 20) / .fin 100))
                * ((percentOr (stdBTLExampleData.get "mortgage_rate") 5.8) / .fin 100)
              + parseCurrency (stdBTLExampleData.get "council_tax")
              + parseCurrency (stdBTLExampleData.get "repairs_maintenance")
              + parseCurrency (stdBTLExampleData.get "utilities")
              + parseCurrency (stdBTLExampleData.get "water")
              + parseCurrency (stdBTLExampleData.get "broadband_tv")
              + parseCurrency (stdBTLExampleData.get "insurance"))) from rfl]
    rw [hpp, hdp, hmrate, hmr, hct, hrm, hut, hwa, hbb, hin]
    simp only [fin_div_100, JSNum.fin_mul_fin, JSNum.fin_sub_fin, JSNum.fin_add_fin]
    norm_num
  · rw [show (calculateStandardBTL stdBTLExampleData).get "roi"
        = some (if JSNum.gtB (parseCurrency (stdBTLExampleData.get "purchase_price")
              * ((percentOr (stdBTLExampleData.get "deposit_percent") 20) / .fin 100)
            + (parseCurrency (stdBTLExampleData.get "stamp_duty")
              + parseCurrency (stdBTLExampleData.get "survey_cost")
              + parseCurrency (stdBTLExampleData.get "legal_fees")
              + parseCurrency (stdBTLExampleData.get "loan_setup"))) (.fin 0)
            then ((parseCurrency (stdBTLExampleData.get "monthly_rent") * .fin 12
              - ((parseCurrency (stdBTLExampleData.get "purchase_price")
                  - parseCurrency (stdBTLExampleData.get "purchase_price")
                    * ((percentOr (stdBTLExampleData.get "deposit_percent") 20) / .fin 100))
                  * ((percentOr (stdBTLExampleData.get "mortgage_rate") 5.8) / .fin 100)
                + parseCurrency (stdBTLExampleData.get "council_tax")
                + parseCurrency (stdBTLExampleData.get "repairs_maintenance")
                + parseCurrency (stdBTLExampleData.get "utilities")
                + parseCurrency (stdBTLExampleData.get "water")
                + parseCurrency (stdBTLExampleData.get "broadband_tv")
                + parseCurrency (stdBTLExampleData.get "insurance")))
              / (parseCurrency (stdBTLExampleData.get "purchase_price")
                * ((percentOr (stdBTLExampleData.get "deposit_percent") 20) / .fin 100)
              + (parseCurrency (stdBTLExampleData.get "stamp_duty")
                + parseCurrency (stdBTLExampleData.get "survey_cost")
                + parseCurrency (stdBTLExampleData.get "legal_fees")
                + parseCurrency (stdBTLExampleData.get "loan_setup")))) * .fin 100
            else .fin 0) from rfl]
    rw [hpp, hdp, hmrate, hmr, hct, hrm, hut, hwa, hbb, hin, hsd, hsc, hlf, hls]
    simp only [fin_div_100, JSNum.fin_mul_fin, JSNum.fin_sub_fin, JSNum.fin_add_fin,
      JSNum.gtB_fin_fin, decide_eq_true_eq]
    rw [if_pos (by norm_num), JSNum.fin_div_fin (by norm_num), JSNum.fin_mul_fin]
    norm_num

/-- C2 counterexample: the claim fails as universally stated — with the
input `{purchase_price: "Infinity"}` (a string `parseFloat` accepts),
the standard-BTL calculator reached through `calculateInvestment`
returns `mortgageAmount = Infinity − Infinity = NaN`, a non-finite
numeric field. -/
theorem C2_counterexample_infinity :
    (calculateInvestment [("purchase_price", .str "Infinity")]).get "mortgageAmount"
      = some JSNum.nan := by
  have hpp : parseCurrency (Data.get [("purchase_price", Value.str "Infinity")] "purchase_price")
      = JSNum.inf := by decide
  rw [show (calculateInvestment [("purchase_price", .str "Infinity")]).get "mortgageAmount"
      = some (parseCurrency (Data.get [("purchase_price", Value.str "Infinity")] "purchase_price")
          - parseCurrency (Data.get [("purchase_price", Value.str "Infinity")] "purchase_price")
            * ((percentOr (Data.get [("purchase_price", Value.str "Infinity")] "deposit_percent")
                20) / JSNum.fin 100)) from rfl]
  rw [hpp]
  rw [show percentOr (Data.get [("purchase_price", Value.str "Infinity")] "deposit_percent") 20
      = JSNum.fin 20 from rfl]
  rw [fin_div_100, JSNum.inf_mul_fin (by norm_num)]
  rfl

/-- C2 (amended): every numeric field of each of the six calculators
reached through `calculateInvestment` is a finite number — never `NaN`
and never undefined — provided no supplied field parses to an infinite
value (which only the strings "Infinity"/"-Infinity" can produce); in
particular each calculator applied to the empty mapping computes as if
its documented defaults (deposit_percent 20, mortgage_rate 5.8,
refinance_ltv 75, occupancy rates 50/80/60, management_fee 20,
number_of_rooms 1, holding_period 6) had been supplied. -/
theorem C2_finite_fields (d : Data) (h : noInfInputs d) :
    allFinite (calculateInvestment d) ∧
    allFinite (calculateStandardBTL d) ∧ allFinite (calculateBRR d) ∧
    allFinite (calculateFlip d) ∧ allFinite (calculateHolidayLet d) ∧
    allFinite (calculateRentToHMO d) ∧ allFinite (calculateRentToServiced d) ∧
    calculateStandardBTL ([] : Data)
      = calculateStandardBTL [("deposit_percent", .num 20), ("mortgage_rate", .num 5.8)] ∧
    calculateBRR ([] : Data)
      = calculateBRR [("deposit_percent", .num 20), ("mortgage_rate", .num 5.8),
          ("refinance_ltv", .num 75)] ∧
    calculateFlip ([] : Data) = calculateFlip [("holding_period", .num 6)] ∧
    calculateHolidayLet ([] : Data)
      = calculateHolidayLet [("deposit_percent", .num 20), ("mortgage_rate", .num 5.8),
          ("occupancy_rate", .num 50), ("management_fee", .num 20)] ∧
    calculateRentToHMO ([] : Data)
      = calculateRentToHMO [("number_of_rooms", .num 1), ("occupancy_rate", .num 80)] ∧
    calculateRentToServiced ([] : Data)
      = calculateRentToServiced [("occupancy_rate", .num 60), ("management_fee", .num 20)] :=
  ⟨calculateInvestment_allFinite h, calculateStandardBTL_allFinite h, calculateBRR_allFinite h,
   calculateFlip_allFinite h, calculateHolidayLet_allFinite h, calculateRentToHMO_allFinite h,
   calculateRentToServiced_allFinite h, defaults_std, defaults_brr, defaults_flip,
   defaults_holiday, defaults_hmo, defaults_serviced⟩

/-- C2 witness: the amended theorem at the empty mapping. -/
theorem C2_finite_fields_witness :
    allFinite (calculateInvestment ([] : Data)) ∧
    calculateStandardBTL ([] : Data)
      = calculateStandardBTL [("deposit_percent", .num 20), ("mortgage_rate", .num 5.8)] := by
  have h : noInfInputs ([] : Data) := by
    intro k
    refine ⟨trivial, ?_, ?_⟩ <;> simp [Data.get, jsParseFloat]
  exact ⟨(C2_finite_fields [] h).1, (C2_finite_fields [] h).2.2.2.2.2.2.2.1⟩

/-- C3 counterexample: a caller-supplied `deposit_percent` of 0 (or
"0") is not used as 0 — with purchase price 100 the deposit comes out
as 20 (the 20% default), not 0 as the claim predicts. -/
theorem C3_counterexample_zero_replaced :
    (calculateStandardBTL [("purchase_price", .num 100), ("deposit_percent", .num 0)]).get
        "depositAmount" = some (.fin 20) ∧
    (calculateStandardBTL [("purchase_price", .num 100), ("deposit_percent", .num 0)]).get
        "depositAmount" ≠ some (.fin 0) ∧
    (calculateStandardBTL [("purchase_price", .num 100), ("deposit_percent", .str "0")]).get
        "depositAmount" = some (.fin 20) := by
  have h1 : (calculateStandardBTL [("purchase_price", .num 100),
      ("deposit_percent", .num 0)]).get "depositAmount" = some (.fin 20) := by
    rw [show (calculateStandardBTL [("purchase_price", Value.num 100),
        ("deposit_percent", Value.num 0)]).get "depositAmount"
        = some (JSNum.fin 100 * ((percentOr (some (Value.num 0)) 20) / .fin 100)) from rfl]
    rw [show percentOr (some (Value.num 0)) 20 = JSNum.fin 20 from rfl]
    simp only [fin_div_100, JSNum.fin_mul_fin]
    norm_num
  have h2 : (calculateStandardBTL [("purchase_price", .num 100),
      ("deposit_percent", .str "0")]).get "depositAmount" = some (.fin 20) := by
    rw [show (calculateStandardBTL [("purchase_price", Value.num 100),
        ("deposit_percent", Value.str "0")]).get "depositAmount"
        = some (JSNum.fin 100 * ((percentOr (some (Value.str "0")) 20) / .fin 100)) from rfl]
    have hpf : jsParseFloat (some (Value.str "0")) = JSNum.fin 0 := by
      rw [show jsParseFloat (some (Value.str "0")) = parseFloatCore ("0".data) from rfl,
        parseFloatCore_digits2 (by decide) (by decide)]
      norm_num [show natOfDigits ("0".data) = 0 from by decide]
    rw [show percentOr (some (Value.str "0")) 20 = JSNum.fin 20 from
      percentOr_falsy (by rw [hpf]; simp)]
    simp only [fin_div_100, JSNum.fin_mul_fin]
    norm_num
  refine ⟨h1, ?_, h2⟩
  rw [h1]
  intro hc
  have := Option.some.inj hc
  simp at this

/-- C3 (amended): a percentage-like field's `parseFloat` value is used
exactly when it is truthy; the per-field default is substituted
whenever `parseFloat` yields a falsy value — `NaN` (absent or
non-numeric) **or 0** — so a caller-supplied 0 is replaced by the
default.  Shown for every percentage-like field: `deposit_percent` and
`mortgage_rate` in `calculateStandardBTL`, `refinance_ltv` in
`calculateBRR`, `occupancy_rate` in `calculateHolidayLet`,
`management_fee` in `calculateRentToServiced`, `holding_period` in
`calculateFlip`, and `number_of_rooms` in `calculateRentToHMO`. -/
theorem C3_percent_default_on_falsy (d : Data) :
    (JSNum.truthyB (jsParseFloat (d.get "deposit_percent")) = false →
      (calculateStandardBTL d).get "depositAmount"
        = some (parseCurrency (d.get "purchase_price") * (.fin 20 / .fin 100))) ∧
    (∀ q : ℚ, q ≠ 0 → jsParseFloat (d.get "deposit_percent") = .fin q →
      (calculateStandardBTL d).get "depositAmount"
        = some (parseCurrency (d.get "purchase_price") * (.fin q / .fin 100))) ∧
    (JSNum.truthyB (jsParseFloat (d.get "mortgage_rate")) = false →
      (calculateStandardBTL d).get "totalAnnualExpenses"
        = some ((((calculateStandardBTL d).get "mortgageAmount").getD .nan)
              * (.fin 5.8 / .fin 100)
            + parseCurrency (d.get "council_tax")
            + parseCurrency (d.get "repairs_maintenance")
            + parseCurrency (d.get "utilities") + parseCurrency (d.get "water")
            + parseCurrency (d.get "broadband_tv") + parseCurrency (d.get "insurance"))) ∧
    (∀ q : ℚ, q ≠ 0 → jsParseFloat (d.get "mortgage_rate") = .fin q →
      (calculateStandardBTL d).get "totalAnnualExpenses"
        = some ((((calculateStandardBTL d).get "mortgageAmount").getD .nan)
              * (.fin q / .fin 100)
            + parseCurrency (d.get "council_tax")
            + parseCurrency (d.get "repairs_maintenance")
            + parseCurrency (d.get "utilities") + parseCurrency (d.get "water")
            + parseCurrency (d.get "broadband_tv") + parseCurrency (d.get "insurance"))) ∧
    (JSNum.truthyB (jsParseFloat (d.get "refinance_ltv")) = false →
      (calculateBRR d).get "refinanceAmount"
        = some (parseCurrency (d.get "after_refurb_value") * (.fin 75 / .fin 100))) ∧
    (∀ q : ℚ, q ≠ 0 → jsParseFloat (d.get "refinance_ltv") = .fin q →
      (calculateBRR d).get "refinanceAmount"
        = some (parseCurrency (d.get "after_refurb_value") * (.fin q / .fin 100))) ∧
    (JSNum.truthyB (jsParseFloat (d.get "occupancy_rate")) = false →
      (calculateHolidayLet d).get "occupiedWeeks" = some (.fin 52 * (.fin 50 / .fin 100))) ∧
    (∀ q : ℚ, q ≠ 0 → jsParseFloat (d.get "occupancy_rate") = .fin q →
      (calculateHolidayLet d).get "occupiedWeeks" = some (.fin 52 * (.fin q / .fin 100))) ∧
    (JSNum.truthyB (jsParseFloat (d.get "management_fee")) = false →
      (calculateRentToServiced d).get "totalAnnualExpenses"
        = some ((((calculateRentToServiced d).get "annualRentPaid").getD .nan)
            + (((calculateRentToServiced d).get "annualIncome").getD .nan)
              * (.fin 20 / .fin 100)
            + parseCurrency (d.get "cleaning_fee")
              * (((calculateRentToServiced d).get "occupiedDays").getD .nan)
            + parseCurrency (d.get "council_tax") + parseCurrency (d.get "utilities")
            + parseCurrency (d.get "insurance"))) ∧
    (∀ q : ℚ, q ≠ 0 → jsParseFloat (d.get "management_fee") = .fin q →
      (calculateRentToServiced d).get "totalAnnualExpenses"
        = some ((((calculateRentToServiced d).get "annualRentPaid").getD .nan)
            + (((calculateRentToServiced d).get "annualIncome").getD .nan)
              * (.fin q / .fin 100)
            + parseCurrency (d.get "cleaning_fee")
              * (((calculateRentToServiced d).get "occupiedDays").getD .nan)
            + parseCurrency (d.get "council_tax") + parseCurrency (d.get "utilities")
            + parseCurrency (d.get "insurance"))) ∧
    (JSNum.truthyB (jsParseFloat (d.get "holding_period")) = false →
      (calculateFlip d).get "holdingPeriod" = some (.fin 6)) ∧
    (∀ q : ℚ, q ≠ 0 → jsParseFloat (d.get "holding_period") = .fin q →
      (calculateFlip d).get "holdingPeriod" = some (.fin q)) ∧
    (JSNum.truthyB (jsParseFloat (d.get "number_of_rooms")) = false →
      (calculateRentToHMO d).get "numberOfRooms" = some (.fin 1)) ∧
    (∀ q : ℚ, q ≠ 0 → jsParseFloat (d.get "number_of_rooms") = .fin q →
      (calculateRentToHMO d).get "numberOfRooms" = some (.fin q)) := by
  have hdep : (calculateStandardBTL d).get "depositAmount"
      = some (parseCurrency (d.get "purchase_price")
          * ((percentOr (d.get "deposit_percent") 20) / .fin 100)) := rfl
  have hte : (calculateStandardBTL d).get "totalAnnualExpenses"
      = some ((((calculateStandardBTL d).get "mortgageAmount").getD .nan)
            * ((percentOr (d.get "mortgage_rate") 5.8) / .fin 100)
          + parseCurrency (d.get "council_tax")
          + parseCurrency (d.get "repairs_maintenance")
          + parseCurrency (d.get "utilities") + parseCurrency (d.get "water")
          + parseCurrency (d.get "broadband_tv") + parseCurrency (d.get "insurance")) := rfl
  have hltv : (calculateBRR d).get "refinanceAmount"
      = some (parseCurrency (d.get "after_refurb_value")
          * ((percentOr (d.get "refinance_ltv") 75) / .fin 100)) := rfl
  have hocc : (calculateHolidayLet d).get "occupiedWeeks"
      = some (.fin 52 * ((percentOr (d.get "occupancy_rate") 50) / .fin 100)) := rfl
  have hmf : (calculateRentToServiced d).get "totalAnnualExpenses"
      = some ((((calculateRentToServiced d).get "annualRentPaid").getD .nan)
          + (((calculateRentToServiced d).get "annualIncome").getD .nan)
            * ((percentOr (d.get "management_fee") 20) / .fin 100)
          + parseCurrency (d.get "cleaning_fee")
            * (((calculateRentToServiced d).get "occupiedDays").getD .nan)
          + parseCurrency (d.get "council_tax") + parseCurrency (d.get "utilities")
          + parseCurrency (d.get "insurance")) := rfl
  have hhp : (calculateFlip d).get "holdingPeriod"
      = some (percentOr (d.get "holding_period") 6) := rfl
  have hroom : (calculateRentToHMO d).get "numberOfRooms"
      = some (percentOr (d.get "number_of_rooms") 1) := rfl
  refine ⟨fun h => ?_, fun q hq h => ?_, fun h => ?_, fun q hq h => ?_,
    fun h => ?_, fun q hq h => ?_, fun h => ?_, fun q hq h => ?_,
    fun h => ?_, fun q hq h => ?_, fun h => ?_, fun q hq h => ?_,
    fun h => ?_, fun q hq h => ?_⟩
  · rw [hdep, percentOr_falsy h]
  · rw [hdep, percentOr_of_fin h hq]
  · rw [hte, percentOr_falsy h]
  · rw [hte, percentOr_of_fin h hq]
  · rw [hltv, percentOr_falsy h]
  · rw [hltv, percentOr_of_fin h hq]
  · rw [hocc, percentOr_falsy h]
  · rw [hocc, percentOr_of_fin h hq]
  · rw [hmf, percentOr_falsy h]
  · rw [hmf, percentOr_of_fin h hq]
  · rw [hhp, percentOr_falsy h]
  · rw [hhp, percentOr_of_fin h hq]
  · rw [hroom, percentOr_falsy h]
  · rw [hroom, percentOr_of_fin h hq]

/-- C3 witness: the amended theorem applied with an absent
`deposit_percent` (default 20 used), with the example's supplied
`deposit_percent` 25 (used as 25), and with an absent `holding_period`
(default 6 used). -/
theorem C3_percent_default_on_falsy_witness :
    (calculateStandardBTL [("purchase_price", .num 100)]).get "depositAmount"
      = some (parseCurrency (Data.get [("purchase_price", .num 100)] "purchase_price")
          * (.fin 20 / .fin 100)) ∧
    (calculateStandardBTL stdBTLExampleData).get "depositAmount"
      = some (parseCurrency (stdBTLExampleData.get "purchase_price")
          * (.fin 25 / .fin 100)) ∧
    (calculateFlip ([] : Data)).get "holdingPeriod" = some (.fin 6) :=
  ⟨(C3_percent_default_on_falsy [("purchase_price", .num 100)]).1 (by decide),
   (C3_percent_default_on_falsy stdBTLExampleData).2.1 25 (by norm_num) (by decide),
   (C3_percent_default_on_falsy []).2.2.2.2.2.2.2.2.2.2.1 (by decide)⟩

/-- C4: for every input and every calculator variant, the `roi` field
is 0 whenever its denominator basis (totalInvestment for standard-btl
and flip, the deposit-only totalInvestment for holiday-let,
netInvestment for brr, annualRentPaid for rent-to-hmo and
rent-to-serviced) is ≤ 0 — more generally whenever it is not > 0, so
`roi` is never `NaN` or infinite because of a zero or negative
denominator — and otherwise equals (profit / basis) × 100. -/
theorem C4_roi_guard (d : Data) :
    roiGuardOK (calculateStandardBTL d) "totalInvestment" "annualProfit" ∧
    roiGuardOK (calculateBRR d) "netInvestment" "annualProfit" ∧
    roiGuardOK (calculateFlip d) "totalInvestment" "netProfit" ∧
    roiGuardOK (calculateHolidayLet d) "depositAmount" "annualProfit" ∧
    roiGuardOK (calculateRentToHMO d) "annualRentPaid" "annualProfit" ∧
    roiGuardOK (calculateRentToServiced d) "annualRentPaid" "annualProfit" :=
  ⟨roiGuardOK_of rfl rfl rfl, roiGuardOK_of rfl rfl rfl, roiGuardOK_of rfl rfl rfl,
   roiGuardOK_of rfl rfl rfl, roiGuardOK_of rfl rfl rfl, roiGuardOK_of rfl rfl rfl⟩

/-- C4 witness: concrete instances — for the rent-to-HMO calculator
with a positive rent paid the basis is positive and roi is the
(profit/basis)·100 formula; on the empty mapping the standard-BTL basis
is 0 ≤ 0 and roi is 0. -/
theorem C4_roi_guard_witness :
    (calculateRentToHMO [("monthly_rent_paid", .num 100)]).get "roi"
      = some (((((calculateRentToHMO [("monthly_rent_paid", .num 100)]).get
            "annualProfit").getD .nan)
          / (((calculateRentToHMO [("monthly_rent_paid", .num 100)]).get
            "annualRentPaid").getD .nan)) * .fin 100) ∧
    (calculateStandardBTL ([] : Data)).get "roi" = some (.fin 0) :=
  ⟨(C4_roi_guard [("monthly_rent_paid", .num 100)]).2.2.2.2.1.2.2 (by
      rw [show ((calculateRentToHMO [("monthly_rent_paid", Value.num 100)]).get
          "annualRentPaid").getD .nan = JSNum.fin 100 * JSNum.fin 12 from rfl]
      rw [JSNum.fin_mul_fin, JSNum.gtB_fin_fin, decide_eq_true_eq]
      norm_num),
   (C4_roi_guard []).1.1 (by
      rw [show ((calculateStandardBTL ([] : Data)).get "totalInvestment").getD .nan
          = JSNum.fin 0 * (JSNum.fin 20 / JSNum.fin 100)
            + (JSNum.fin 0 + JSNum.fin 0 + JSNum.fin 0 + JSNum.fin 0) from rfl]
      simp only [fin_div_100, JSNum.fin_mul_fin, JSNum.fin_add_fin, JSNum.leB_fin_fin,
        decide_eq_true_eq]
      norm_num)⟩

/-- C5: the EPC score-to-band lookup maps 84 to grade B and 20 to
grade G; any score outside every band (101, or any score below 1 or
above 100) falls to the lowest band G without error, for the letter and
for the badge's vertical center alike; the value badges are centered on
the band so determined (`bandCenterY` always lands on the center of the
row whose grade `letterFor` names); and the scores default to
current = 84 and potential = 72 when the corresponding fields are
absent or non-numeric. -/
theorem C5_epc_band_lookup :
    letterFor 84 = "B" ∧ letterFor 20 = "G" ∧ letterFor 101 = "G" ∧
    (∀ s : ℤ, s < 1 ∨ 100 < s → letterFor s = "G" ∧
      ∀ y : ℚ, bandCenterY y s = y + 6 * (barHeight + barSpacing) + barHeight / 2) ∧
    (∀ (y : ℚ) (s : ℤ), ∃ i : Fin epcBands.length,
      bandCenterY y s = y + (i : ℚ) * (barHeight + barSpacing) + barHeight / 2 ∧
      letterFor s = (epcBands.get i).grade) ∧
    (∀ d : Data, d.get "current_rating" = none → d.get "epc_rating" = none →
      currentScore d = 84) ∧
    (∀ d : Data, d.get "potential_rating" = none → potentialScore d = 72) ∧
    currentScore [("current_rating", .str "excellent")] = 84 ∧
    potentialScore [("potential_rating", .str "n/a")] = 72 :=
  ⟨by decide, by decide, by decide, fun s hs => epc_outside_defaults hs,
   fun y s => epc_center_letter_consistent y s,
   fun d h1 h2 => currentScore_default h1 h2,
   fun d h => potentialScore_default h, by decide, by decide⟩

/-- C5 witness: the quantified parts at concrete inputs — score −5 is
below every band and falls to G, and the empty mapping defaults to
current = 84. -/
theorem C5_epc_band_lookup_witness :
    (letterFor (-5) = "G" ∧
      ∀ y : ℚ, bandCenterY y (-5) = y + 6 * (barHeight + barSpacing) + barHeight / 2) ∧
    currentScore ([] : Data) = 84 :=
  ⟨C5_epc_band_lookup.2.2.2.1 (-5) (Or.inl (by norm_num)),
   C5_epc_band_lookup.2.2.2.2.2.1 [] rfl rfl⟩

/-- C6 counterexample: the G bar (grade index 7) is *not* drawn at the
full chart width 7/7 — it is clamped to `chartWidth − 0.2·INCH`
(316.8pt instead of 331.2pt) so that the grade letter fits before the
"Current" column. -/
theorem C6_counterexample_G_clamped :
    epcBarWidth 0 (7 - 1) ≠ chartWidth * ((7 : ℚ) / 7) ∧
    epcBarWidth 0 (7 - 1) = chartWidth - 0.2 * INCH := by
  constructor <;> norm_num [epcBarWidth, chartWidth, colGap, INCH]

/-- C6 (amended): for grade index `i` from 1 (A) to 7 (G), the drawn
bar width is `min (chartWidth·i/7) (chartWidth − 0.2·INCH)` — strictly
proportional (`chartWidth·i/7`) for grades A–F, while the G bar alone
is clamped to `chartWidth − 0.2·INCH` — independently of the chart's
x-position. -/
theorem C6_bar_widths (x : ℚ) (i : ℕ) (h1 : 1 ≤ i) (h7 : i ≤ 7) :
    epcBarWidth x (i - 1) = min (chartWidth * ((i : ℚ) / 7)) (chartWidth - 0.2 * INCH) ∧
    (i < 7 → epcBarWidth x (i - 1) = chartWidth * ((i : ℚ) / 7)) := by
  have key : ∀ j : ℕ, epcBarWidth x j
      = if chartWidth * (((j : ℚ) + 1) / 7) > chartWidth - 0.2 * INCH
        then chartWidth - 0.2 * INCH else chartWidth * (((j : ℚ) + 1) / 7) := by
    intro j
    simp only [epcBarWidth]
    rw [show (x - 0.15 * INCH + chartWidth + colGap - 0.32 * INCH - (x - 0.15 * INCH)
        - 0.08 * INCH : ℚ) = chartWidth - 0.2 * INCH from by
      simp only [chartWidth, colGap, INCH]
      ring]
    rw [max_eq_right (by norm_num [chartWidth, INCH])]
  interval_cases i <;>
    exact ⟨by rw [key]; norm_num [chartWidth, INCH, min_def],
      fun hlt => by
        first
          | (rw [key]; norm_num [chartWidth, INCH]; done)
          | exact absurd hlt (by norm_num)⟩

/-- C6 witness: the amended statement at grade index 4 (D). -/
theorem C6_bar_widths_witness :
    epcBarWidth 0 (4 - 1) = min (chartWidth * ((4 : ℚ) / 7)) (chartWidth - 0.2 * INCH) ∧
    (4 < 7 → epcBarWidth 0 (4 - 1) = chartWidth * ((4 : ℚ) / 7)) :=
  C6_bar_widths 0 4 (by norm_num) (by norm_num)

/-- C7: page counts of `generatePDF` — with N (≥ 1) calculator types
selected the investment section occupies exactly N pages; with an empty
(or absent) floor-plan image list exactly one placeholder floor-plan
page is emitted; with an empty gallery image list zero gallery pages
are emitted. -/
theorem C7_page_counts (d : Data) (im : Images) (titleH : ℚ) :
    (∀ cts : List String, cts ≠ [] → d.get "selected_calculators" = some (.arr cts) →
      (generatePDFPages d im titleH).countP isInvestmentPage = cts.length) ∧
    (im.floor_plans = none ∨ im.floor_plans = some [] →
      (generatePDFPages d im titleH).countP isFloorPlanPage = 1) ∧
    (galleryList im = [] →
      (generatePDFPages d im titleH).countP isGalleryPage = 0) :=
  ⟨fun _ hne hd => countInvestment d im titleH hd hne,
   fun hfp => countFloorPlan d im titleH hfp,
   fun hg => countGallery d im titleH hg⟩

/-- C7 witness: a concrete run — two selected calculators give two
investment pages, an empty floor-plan list gives one placeholder page,
an empty property list gives zero gallery pages. -/
theorem C7_page_counts_witness :
    (generatePDFPages [("selected_calculators", .arr ["brr", "flip"])]
        { floor_plans := some [], property := some [] } 28).countP isInvestmentPage = 2 ∧
    (generatePDFPages [("selected_calculators", .arr ["brr", "flip"])]
        { floor_plans := some [], property := some [] } 28).countP isFloorPlanPage = 1 ∧
    (generatePDFPages [("selected_calculators", .arr ["brr", "flip"])]
        { floor_plans := some [], property := some [] } 28).countP isGalleryPage = 0 :=
  ⟨(C7_page_counts _ _ _).1 ["brr", "flip"] (by simp) rfl,
   (C7_page_counts _ _ _).2.1 (Or.inr rfl),
   (C7_page_counts _ _ _).2.2 rfl⟩

/-- C8: round-trip of the currency helpers — for every non-negative
rational `x`, `parseCurrency (formatCurrency x)` recovers `x` rounded
to the nearest whole unit (`⌊x + 1/2⌋`, the half-away-from-zero
rounding `toLocaleString` applies): formatting renders the rounded
whole number with a `£` sign and comma thousands separators, and
parsing strips exactly those again. -/
theorem C8_round_trip (x : ℚ) (hx : 0 ≤ x) :
    parseCurrency (some (.str (formatCurrency x))) = .fin ((⌊x + 1 / 2⌋ : ℤ) : ℚ) := by
  have hneg : ¬ x < 0 := not_lt.mpr hx
  have hfmt : formatCurrency x = "£" ++ groupedDigits (roundHalfExpand x).toNat := by
    rw [formatCurrency, if_neg hneg]
  rw [hfmt]
  have hdata := stripCur_format (roundHalfExpand x).toNat
  have htr : truthyO (some (.str ("£" ++ groupedDigits (roundHalfExpand x).toNat))) = true := by
    show (!("£" ++ groupedDigits (roundHalfExpand x).toNat).isEmpty) = true
    have hne : ¬ ("£" ++ groupedDigits (roundHalfExpand x).toNat) = "" := by
      rw [String.ext_iff, String.data_append]
      simp [show ("£".data) = ['£'] from rfl]
    have h2 : ("£" ++ groupedDigits (roundHalfExpand x).toNat).isEmpty = false := by
      rcases hb : ("£" ++ groupedDigits (roundHalfExpand x).toNat).isEmpty
      · rfl
      · exact absurd ((String.isEmpty_iff _).mp hb) hne
    simp [h2]
  rw [parseCurrency_digits _ htr
    (by rw [hdata]; exact digitsBE_ne_nil _)
    (by rw [hdata]; exact digitsBE_digits _)]
  rw [hdata, natOfDigits_digitsBE]
  have hround : roundHalfExpand x = ⌊x + 1 / 2⌋ := by rw [roundHalfExpand, if_neg hneg]
  have hpos : 0 ≤ ⌊x + 1 / 2⌋ := Int.floor_nonneg.mpr (by linarith)
  rw [hround]
  congr 1
  exact_mod_cast Int.toNat_of_nonneg hpos

/-- C8 witness: the round trip at 1234567.5 — formatting gives
"£1,234,568" and parsing recovers 1234568. -/
theorem C8_round_trip_witness :
    parseCurrency (some (.str (formatCurrency 1234567.5))) = .fin 1234568 := by
  rw [C8_round_trip 1234567.5 (by norm_num)]
  norm_num

/-- C9: the calculator module's `parseCurrency` and the PDF generator's
local `parseCurrency` helper agree on every input value; both send any
falsy value to 0, and both send strings whose stripped remainder fails
to parse to 0. -/
theorem C9_parseCurrency_agree :
    (∀ v : Option Value, parseCurrency v = parseCurrencyPDF v) ∧
    (∀ v : Option Value, truthyO v = false → parseCurrency v = .fin 0) ∧
    (∀ s : String, jsParseFloatS (stripCur s) = .nan →
      parseCurrency (some (.str s)) = .fin 0) := by
  refine ⟨fun v => rfl, fun v h => ?_, fun s h => ?_⟩
  · simp [parseCurrency, h]
  · by_cases ht : truthyO (some (.str s)) <;>
      simp [parseCurrency, ht, h, JSNum.orZero, JSNum.truthyB]

/-- C9 witness: agreement and the falsy/non-numeric cases at concrete
inputs. -/
theorem C9_parseCurrency_agree_witness :
    parseCurrency (some (.str "£1,234.50")) = parseCurrencyPDF (some (.str "£1,234.50")) ∧
    parseCurrency (some (.num 0)) = .fin 0 ∧
    parseCurrency (some (.str "N/A")) = .fin 0 :=
  ⟨C9_parseCurrency_agree.1 _,
   C9_parseCurrency_agree.2.1 (some (.num 0)) (by decide),
   C9_parseCurrency_agree.2.2 "N/A" (by decide)⟩

/-- C10: the gallery section draws from `images.property`, falling back
to `images.cover` only when the `property` key is entirely absent
(undefined/null, modelled as `none`); a present-but-empty `property`
list yields no gallery pages even when `cover` is non-empty. -/
theorem C10_gallery_source (im : Images) :
    (∀ l, im.property = some l → galleryList im = l) ∧
    (im.property = none → galleryList im = im.cover.getD []) ∧
    (∀ (d : Data) (titleH : ℚ), im.property = some [] →
      (generatePDFPages d im titleH).countP isGalleryPage = 0) := by
  refine ⟨fun l hl => ?_, fun h => ?_, fun d titleH h => ?_⟩
  · simp only [galleryList, hl]
  · simp only [galleryList, h]
    rcases hc : im.cover with _ | l <;> simp [hc]
  · exact countGallery d im titleH (by simp only [galleryList, h])

/-- C10 witness: with `property = []` and a non-empty `cover`, the
gallery list is empty and a concrete run emits zero gallery pages. -/
theorem C10_gallery_source_witness :
    galleryList { property := some [], cover := some ["cover1.jpg"] } = [] ∧
    (generatePDFPages [] { property := some [], cover := some ["cover1.jpg"] } 28).countP
      isGalleryPage = 0 :=
  ⟨(C10_gallery_source _).1 [] rfl,
   (C10_gallery_source _).2.2 [] 28 rfl⟩

end PDFGen
